import Mathlib

/-!
Shallow embedding of the WebGL thin rendering engine (`thinEngine.ts`):
the bound-state cache, the buffer/texture/program binding operations, the
resource factory (vertex/index buffers, compiled effects), the cache wipe,
and the context-loss handler.  Handles (WebGL buffers, textures, programs,
VAOs, uniform locations, effect objects) are represented by natural-number
identifiers; JavaScript object identity (`!==`) becomes identifier equality.
Every call the engine issues to the underlying `WebGLRenderingContext` is
recorded, most recent first, in a trace (`EngineState.calls`), so that
"issues the underlying driver call" is a statement about that trace.
-/

namespace Babylon

/-- A JavaScript slot value: distinguishes `undefined` (never written),
`null`, and an actual handle.  Needed because the engine caches compare with
`!==`, under which `undefined` differs from `null`. -/
inductive JsVal (α : Type) where
  | undef : JsVal α
  | null : JsVal α
  | val (a : α) : JsVal α
deriving DecidableEq, Repr

/-- JavaScript strict equality between a cached slot (`JsVal`) and a
`Nullable<T>` argument (`Option`): `undefined` matches nothing, `null`
matches only `null`, a handle matches only the identical handle. -/
def JsVal.matches {α : Type} [DecidableEq α] : JsVal α → Option α → Bool
  | .null, none => true
  | .val a, some b => a = b
  | _, _ => false

/-- Converts a `Nullable<T>` argument to the slot value obtained by storing it. -/
def JsVal.ofOption {α : Type} : Option α → JsVal α
  | none => .null
  | some a => .val a

/-- Lookup in a JS dictionary keyed by numbers: absent keys read as `undefined`. -/
def dictGet {α : Type} (l : List (Int × Option α)) (k : Int) : JsVal α :=
  match l.find? (fun p => p.1 = k) with
  | none => .undef
  | some (_, none) => .null
  | some (_, some a) => .val a

/-- Assignment in a JS dictionary keyed by numbers: overwrites the first
binding for the key, or appends a fresh one. -/
def dictSet {α : Type} (l : List (Int × Option α)) (k : Int) (v : Option α) :
    List (Int × Option α) :=
  match l with
  | [] => [(k, v)]
  | (k1, v1) :: rest =>
    if k1 = k then (k, v) :: rest else (k1, v1) :: dictSet rest k v

/-- Lookup in an association list (JS object used as a keyed store). -/
def assocGet {κ α : Type} [DecidableEq κ] (l : List (κ × α)) (k : κ) : Option α :=
  match l.find? (fun p => p.1 = k) with
  | none => none
  | some (_, a) => some a

/-- Update in an association list (JS keyed store assignment). -/
def assocSet {κ α : Type} [DecidableEq κ] (l : List (κ × α)) (k : κ) (v : α) :
    List (κ × α) :=
  match l with
  | [] => [(k, v)]
  | (k1, v1) :: rest =>
    if k1 = k then (k, v) :: rest else (k1, v1) :: assocSet rest k v

/-- Reading a JS `boolean[]` at an index: holes and out-of-range reads are
`undefined`, which is falsy. -/
def jsArrGetBool (l : List Bool) (i : Nat) : Bool := l.getD i false

/-- Writing a JS `boolean[]` at an index: extends the array (holes falsy). -/
def jsArrSetBool (l : List Bool) (i : Nat) (b : Bool) : List Bool :=
  match l, i with
  | [], 0 => [b]
  | [], n + 1 => false :: jsArrSetBool [] n b
  | _ :: rest, 0 => b :: rest
  | x :: rest, n + 1 => x :: jsArrSetBool rest n b

/-- WebGL enumerant constants used by the engine (`this._gl.*`). -/
def glARRAY_BUFFER : Nat := 34962
def glELEMENT_ARRAY_BUFFER : Nat := 34963
def glSTATIC_DRAW : Nat := 35044
def glDYNAMIC_DRAW : Nat := 35048
def glTEXTURE0 : Int := 33984
def glTEXTURE_2D : Nat := 3553
def glUNSIGNED_INT : Nat := 5125
def glINT : Nat := 5124
def glFLOAT : Nat := 5126
def glUNPACK_COLORSPACE_CONVERSION_WEBGL : Nat := 37443
def glUNPACK_PREMULTIPLY_ALPHA_WEBGL : Nat := 37441
def glNONE : Nat := 0

/-- Babylon `Constants` used by the embedded functions. -/
def TEXTURETYPE_UNSIGNED_BYTE : Nat := 0
def TEXTURETYPE_FLOAT : Nat := 1
def TEXTURETYPE_HALF_FLOAT : Nat := 2
def TEXTURE_NEAREST_SAMPLINGMODE : Nat := 1
def TEXTURE_TRILINEAR_SAMPLINGMODE : Nat := 3
def TEXTUREFORMAT_RGBA : Nat := 5

/-- One call issued to the underlying graphics context, as recorded in the
trace.  Only calls reachable from the embedded operations are listed. -/
inductive GLCall where
  | createBuffer (id : Nat)
  | deleteBuffer (resource : Nat)
  | bindBuffer (target : Nat) (resource : Option Nat)
  | bufferData (target : Nat) (byteLength : Nat) (usage : Nat)
  | bindVertexArray (vao : Option Nat)
  | useProgram (program : Option Nat)
  | activeTexture (unit : Int)
  | bindTexture (target : Nat) (resource : Option Nat)
  | uniform1i (uniform : Nat) (v : Int)
  | enableVertexAttribArray (location : Int)
  | disableVertexAttribArray (location : Int)
  | vertexAttribPointer (location : Int) (size : Nat) (ty : Nat)
      (normalized : Bool) (stride : Nat) (offset : Nat)
  | vertexAttribIPointer (location : Int) (size : Nat) (ty : Nat)
      (stride : Nat) (offset : Nat)
  | vertexAttribDivisor (location : Int) (divisor : Nat)
  | pixelStorei (pname : Nat) (param : Nat)
deriving DecidableEq, Repr

/-- The subset of the capability record (`this._caps`) the embedded
operations read. -/
structure Caps where
  uintIndices : Bool
  maxVertexAttribs : Nat
  textureFloat : Bool
  textureFloatLinearFiltering : Bool
  textureHalfFloatLinearFiltering : Bool
  supportSRGBBuffers : Bool
deriving DecidableEq, Repr

/-- The mutable fields of a `WebGLDataBuffer` the engine touches.
`underlyingResource` is the buffer's own identifier. -/
structure BufferRec where
  references : Int
  capacity : Nat
  is32Bits : Bool
deriving DecidableEq, Repr

/-- The fields of an `InternalTexture` read or written by the binding path. -/
structure TextureRec where
  associatedChannel : Int
  isMultiview : Bool
  hardwareResource : Option Nat
deriving DecidableEq, Repr

/-- One entry of `_currentBufferPointers` (class `BufferPointer`). -/
structure BufferPointer where
  active : Bool
  index : Int
  size : Nat
  ty : Nat
  normalized : Bool
  stride : Nat
  offset : Nat
  buffer : Nat
deriving DecidableEq, Repr

/-- The engine state: the bound-state cache fields of `ThinEngine` /
`AbstractEngine`, the stores of live handle objects, and the trace of calls
issued to the underlying context (most recent call first). -/
structure EngineState where
  caps : Caps
  contextWasLost : Bool
  contextLostNotifications : Nat
  preventCacheWipeBetweenFrames : Bool
  vaoRecordInProgress : Bool
  mustWipeVertexAttributes : Bool
  webGLVersion : Nat
  currentProgram : Option Nat
  currentEffect : Option Nat
  cachedVertexArrayObject : Option Nat
  boundBufferArray : JsVal Nat
  boundBufferElement : JsVal Nat
  cachedVertexBuffers : JsVal Nat
  cachedIndexBuffer : Option Nat
  cachedEffectForVertexBuffers : JsVal Nat
  uintIndicesCurrentlySet : Bool
  vertexAttribArraysEnabled : List Bool
  currentBufferPointers : List BufferPointer
  currentInstanceLocations : List Int
  currentInstanceBuffers : List Nat
  boundTexturesCache : List (Int × Option Nat)
  activeChannel : Int
  currentTextureChannel : Int
  boundUniforms : List (Int × Nat)
  uniformCurrentState : List (Nat × Int)
  viewportX : Int
  viewportY : Int
  viewportZ : Int
  viewportW : Int
  colorWrite : Bool
  colorWriteChanged : Bool
  unpackFlipYCached : Option Bool
  buffers : List (Nat × BufferRec)
  textures : List (Nat × TextureRec)
  compiledEffects : List (String × Nat)
  effectRefCounts : List (Nat × Nat)
  nextId : Nat
  calls : List GLCall
deriving DecidableEq, Repr

/-- Appends a call to the underlying-context trace. -/
def emit (s : EngineState) (c : GLCall) : EngineState :=
  { s with calls := c :: s.calls }

/-- Reads `this._currentBoundBuffer[target]` (only the two buffer-binding
targets the engine ever passes are represented). -/
def getBoundBuffer (s : EngineState) (target : Nat) : JsVal Nat :=
  if target = glELEMENT_ARRAY_BUFFER then s.boundBufferElement else s.boundBufferArray

/-- Writes `this._currentBoundBuffer[target]`. -/
def setBoundBuffer (s : EngineState) (target : Nat) (v : JsVal Nat) : EngineState :=
  if target = glELEMENT_ARRAY_BUFFER then { s with boundBufferElement := v }
  else { s with boundBufferArray := v }

/-- `ThinEngine._bindBuffer(buffer, target)`: compare-and-set bind through
the bound-buffer cache; issues `gl.bindBuffer` only when recording a VAO or
when the cached slot differs from the requested handle. -/
def _bindBuffer (s : EngineState) (buffer : Option Nat) (target : Nat) : EngineState :=
  if s.vaoRecordInProgress || !((getBoundBuffer s target).matches buffer) then
    let s := emit s (.bindBuffer target buffer)
    setBoundBuffer s target (.ofOption buffer)
  else
    s

/-- `ThinEngine._unbindVertexArrayObject()`. -/
def _unbindVertexArrayObject (s : EngineState) : EngineState :=
  match s.cachedVertexArrayObject with
  | none => s
  | some _ =>
    let s := { s with cachedVertexArrayObject := none }
    emit s (.bindVertexArray none)

/-- `ThinEngine.bindArrayBuffer(buffer)`. -/
def bindArrayBuffer (s : EngineState) (buffer : Option Nat) : EngineState :=
  let s := if !s.vaoRecordInProgress then _unbindVertexArrayObject s else s
  _bindBuffer s buffer glARRAY_BUFFER

/-- `ThinEngine.bindIndexBuffer(buffer)`. -/
def bindIndexBuffer (s : EngineState) (buffer : Option Nat) : EngineState :=
  let s := if !s.vaoRecordInProgress then _unbindVertexArrayObject s else s
  _bindBuffer s buffer glELEMENT_ARRAY_BUFFER

/-- `ThinEngine._setProgram(program)`: compare-and-set through the current
program cache; the underlying `useProgram` call is issued by the imported
`_setProgram` helper. -/
def _setProgram (s : EngineState) (program : Option Nat) : EngineState :=
  if s.currentProgram ≠ program then
    let s := emit s (.useProgram program)
    { s with currentProgram := program }
  else
    s

/-- Reads an `InternalTexture` object from the heap.  The default is never
reached on well-formed states (every bound id is in the store). -/
def getTexture (s : EngineState) (t : Nat) : TextureRec :=
  (assocGet s.textures t).getD ⟨-1, false, none⟩

/-- Writes an `InternalTexture` object back to the heap. -/
def setTextureRec (s : EngineState) (t : Nat) (v : TextureRec) : EngineState :=
  { s with textures := assocSet s.textures t v }

/-- `ThinEngine._activateCurrentTexture()`. -/
def _activateCurrentTexture (s : EngineState) : EngineState :=
  if s.currentTextureChannel ≠ s.activeChannel then
    let s := emit s (.activeTexture (glTEXTURE0 + s.activeChannel))
    { s with currentTextureChannel := s.activeChannel }
  else
    s

/-- `ThinEngine._bindSamplerUniformToChannel(sourceSlot, destination)`:
issues `gl.uniform1i` unless the uniform is absent or its `_currentState`
already equals the destination (an unset `_currentState` is `undefined` and
never equal). -/
def _bindSamplerUniformToChannel (s : EngineState) (sourceSlot destination : Int) :
    EngineState :=
  match assocGet s.boundUniforms sourceSlot with
  | none => s
  | some u =>
    if assocGet s.uniformCurrentState u = some destination then s
    else
      let s := emit s (.uniform1i u destination)
      { s with uniformCurrentState := assocSet s.uniformCurrentState u destination }

/-- `ThinEngine._bindTextureDirectly(target, texture, forTextureDataUpdate,
force)`: compare-and-set texture bind on the active channel.  Throws (the
`Except.error` case) when asked to bind a multiview texture through this
generic path. -/
def _bindTextureDirectly (s : EngineState) (target : Nat) (texture : Option Nat)
    (forTextureDataUpdate force : Bool) : Except String (EngineState × Bool) :=
  let isTextureForRendering :=
    match texture with
    | some t => decide ((getTexture s t).associatedChannel > -1)
    | none => false
  let s :=
    match texture, forTextureDataUpdate && isTextureForRendering with
    | some t, true => { s with activeChannel := (getTexture s t).associatedChannel }
    | _, _ => s
  let currentTextureBound := dictGet s.boundTexturesCache s.activeChannel
  if !(currentTextureBound.matches texture) || force then
    let s := _activateCurrentTexture s
    match texture, (match texture with
                    | some t => (getTexture s t).isMultiview
                    | none => false) with
    | some _, true => .error "_bindTextureDirectly called with a multiview texture!"
    | _, _ =>
      let s := emit s (.bindTexture target
        (match texture with
         | some t => (getTexture s t).hardwareResource
         | none => none))
      let s := { s with
        boundTexturesCache := dictSet s.boundTexturesCache s.activeChannel texture }
      let s :=
        match texture with
        | some t => setTextureRec s t { getTexture s t with associatedChannel := s.activeChannel }
        | none => s
      let s :=
        match texture, isTextureForRendering && !forTextureDataUpdate with
        | some t, true =>
          _bindSamplerUniformToChannel s (getTexture s t).associatedChannel s.activeChannel
        | _, _ => s
      .ok (s, false)
  else
    let (s, wasPreviouslyBound) :=
      if forTextureDataUpdate then (_activateCurrentTexture s, true) else (s, false)
    let s :=
      match texture, isTextureForRendering && !forTextureDataUpdate with
      | some t, true =>
        _bindSamplerUniformToChannel s (getTexture s t).associatedChannel s.activeChannel
      | _, _ => s
    .ok (s, wasPreviouslyBound)

/-- The `webglcontextlost` listener installed by the engine constructor
(`_onContextLost`): records the loss and notifies the observers.  The
`evt.preventDefault()` call, the per-context state-object deletion and the
logged warning have no counterpart in the modelled state; the observer
notification is counted in `contextLostNotifications`. -/
def _onContextLost (s : EngineState) : EngineState :=
  { s with contextWasLost := true,
           contextLostNotifications := s.contextLostNotifications + 1 }

/-- Reads a `WebGLDataBuffer` object from the heap. -/
def getBuffer (s : EngineState) (id : Nat) : BufferRec :=
  (assocGet s.buffers id).getD ⟨0, 0, false⟩

/-- Writes a `WebGLDataBuffer` object back to the heap. -/
def setBuffer (s : EngineState) (id : Nat) (v : BufferRec) : EngineState :=
  { s with buffers := assocSet s.buffers id v }

/-- `ThinEngine._resetVertexBufferBinding()`. -/
def _resetVertexBufferBinding (s : EngineState) : EngineState :=
  let s := bindArrayBuffer s none
  { s with cachedVertexBuffers := .null }

/-- `ThinEngine._resetIndexBufferBinding()`. -/
def _resetIndexBufferBinding (s : EngineState) : EngineState :=
  let s := bindIndexBuffer s none
  { s with cachedIndexBuffer := none }

/-- The `data` argument of `createVertexBuffer`: a `number[]` (uploaded as a
`Float32Array`, 4 bytes per element), an `ArrayBuffer`/view (uploaded as-is),
or a numeric byte size. -/
inductive DataArrayInput where
  | numbers (len : Nat)
  | view (byteLength : Nat)
  | size (n : Nat)
deriving DecidableEq, Repr

/-- The byte capacity recorded for the buffer, exactly as computed in each
branch of `_createVertexBuffer`. -/
def DataArrayInput.capacity : DataArrayInput → Nat
  | .numbers len => len * 4
  | .view byteLength => byteLength
  | .size n => n

/-- `ThinEngine._createVertexBuffer(data, usage)`: allocate, bind through the
cache, upload, unbind, set the reference count to 1.  The modelled driver
always returns a fresh handle, so the `Unable to create vertex buffer` throw
on a null `gl.createBuffer` result is unreachable here. -/
def _createVertexBuffer (s : EngineState) (data : DataArrayInput) (usage : Nat) :
    EngineState × Nat :=
  let vbo := s.nextId
  let s := emit { s with nextId := s.nextId + 1 } (.createBuffer vbo)
  let s := setBuffer s vbo ⟨0, 0, false⟩
  let s := bindArrayBuffer s (some vbo)
  let s := emit s (.bufferData glARRAY_BUFFER data.capacity usage)
  let s := setBuffer s vbo { getBuffer s vbo with capacity := data.capacity }
  let s := _resetVertexBufferBinding s
  let s := setBuffer s vbo { getBuffer s vbo with references := 1 }
  (s, vbo)

/-- `ThinEngine.createVertexBuffer(data)`. -/
def createVertexBuffer (s : EngineState) (data : DataArrayInput) : EngineState × Nat :=
  _createVertexBuffer s data glSTATIC_DRAW

/-- `ThinEngine.createDynamicVertexBuffer(data)`. -/
def createDynamicVertexBuffer (s : EngineState) (data : DataArrayInput) :
    EngineState × Nat :=
  _createVertexBuffer s data glDYNAMIC_DRAW

/-- An `IndicesArray` argument: `number[]`, `Int32Array`, `Uint16Array` or
`Uint32Array` (the typed variants carry their `BYTES_PER_ELEMENT`). -/
inductive IndicesArray where
  | numbers (l : List Int)
  | int32 (l : List Int)
  | uint16 (l : List Nat)
  | uint32 (l : List Nat)
deriving DecidableEq, Repr

/-- The numeric values read by indexing into the array. -/
def IndicesArray.values : IndicesArray → List Int
  | .numbers l => l
  | .int32 l => l
  | .uint16 l => l.map Int.ofNat
  | .uint32 l => l.map Int.ofNat

/-- JavaScript `ToUint16` (the element conversion of `new Uint16Array(a)`):
reduction modulo 2^16, mapping negatives into range. -/
def toUint16 (v : Int) : Nat := (v % 65536).toNat

/-- JavaScript `ToUint32` (the element conversion of `new Uint32Array(a)`):
reduction modulo 2^32, mapping negatives into range. -/
def toUint32 (v : Int) : Nat := (v % 4294967296).toNat

/-- The result of `_normalizeIndexData`: a `Uint16Array` or a `Uint32Array`. -/
inductive NormalizedIndices where
  | u16 (l : List Nat)
  | u32 (l : List Nat)
deriving DecidableEq, Repr

/-- `BYTES_PER_ELEMENT === 4` on the normalized data. -/
def NormalizedIndices.is32Bits : NormalizedIndices → Bool
  | .u16 _ => false
  | .u32 _ => true

/-- The `byteLength` uploaded by `gl.bufferData` for the normalized data. -/
def NormalizedIndices.byteLength : NormalizedIndices → Nat
  | .u16 l => l.length * 2
  | .u32 l => l.length * 4

/-- `ThinEngine._normalizeIndexData(indices)`: keeps a `Uint16Array` as-is;
with the 32-bit-index capability keeps a `Uint32Array` as-is and otherwise
widens to 32-bit exactly when some value is `>= 65535`; without the
capability always narrows to 16-bit (values above the range are truncated). -/
def _normalizeIndexData (caps : Caps) (indices : IndicesArray) : NormalizedIndices :=
  match indices with
  | .uint16 l => .u16 l
  | _ =>
    if caps.uintIndices then
      match indices with
      | .uint32 l => .u32 l
      | _ =>
        if indices.values.any (fun v => v ≥ 65535) then
          .u32 (indices.values.map toUint32)
        else
          .u16 (indices.values.map toUint16)
    else
      .u16 (indices.values.map toUint16)

/-- `ThinEngine.createIndexBuffer(indices, updatable)`: allocate, bind through
the cache, upload the normalized data, unbind, set the reference count and
the 32-bit flag.  As with `_createVertexBuffer`, the null-handle throw is
unreachable for the modelled driver. -/
def createIndexBuffer (s : EngineState) (indices : IndicesArray) (updatable : Bool) :
    EngineState × Nat :=
  let vbo := s.nextId
  let s := emit { s with nextId := s.nextId + 1 } (.createBuffer vbo)
  let s := setBuffer s vbo ⟨0, 0, false⟩
  let s := bindIndexBuffer s (some vbo)
  let data := _normalizeIndexData s.caps indices
  let s := emit s (.bufferData glELEMENT_ARRAY_BUFFER data.byteLength
    (if updatable then glDYNAMIC_DRAW else glSTATIC_DRAW))
  let s := _resetIndexBufferBinding s
  let s := setBuffer s vbo { getBuffer s vbo with references := 1, is32Bits := data.is32Bits }
  (s, vbo)

/-- `ThinEngine._deleteBuffer(buffer)`: frees the underlying allocation. -/
def _deleteBuffer (s : EngineState) (id : Nat) : EngineState :=
  emit s (.deleteBuffer id)

/-- `ThinEngine._releaseBuffer(buffer)`: decrements the reference count and
frees the underlying allocation exactly when the count reaches zero. -/
def _releaseBuffer (s : EngineState) (id : Nat) : EngineState × Bool :=
  let b0 := getBuffer s id
  let s := setBuffer s id { b0 with references := b0.references - 1 }
  if b0.references - 1 = 0 then (_deleteBuffer s id, true) else (s, false)

/-- Modelled from the spec: attaching a buffer to an additional consumer
increments its reference count ("each additional consumer that attaches it
increments"); the consumers that perform `buffer.references++` (e.g. the
`VertexBuffer` constructor) are outside the provided engine source. -/
def attachBuffer (s : EngineState) (id : Nat) : EngineState :=
  let b0 := getBuffer s id
  setBuffer s id { b0 with references := b0.references + 1 }

/-- `AbstractEngine.disableAttributeByIndex(attributeLocation)`: issues the
underlying disable call, clears the enabled bit and deactivates the cached
attribute pointer (the source assumes the pointer entry exists). -/
def disableAttributeByIndex (s : EngineState) (attributeLocation : Nat) : EngineState :=
  let s := emit s (.disableVertexAttribArray attributeLocation)
  let enabled := jsArrSetBool s.vertexAttribArraysEnabled attributeLocation false
  let s := { s with vertexAttribArraysEnabled := enabled }
  let p0 := s.currentBufferPointers.getD attributeLocation ⟨false, 0, 0, 0, false, 0, 0, 0⟩
  { s with currentBufferPointers :=
      s.currentBufferPointers.set attributeLocation { p0 with active := false } }

/-- `AbstractEngine.unbindAllAttributes()`: disables every attribute index
up to `maxVertexAttribs` after a forced wipe, and otherwise only the indices
currently flagged enabled (the loop bound is the enabled-array length
captured at entry). -/
def unbindAllAttributes (s : EngineState) : EngineState :=
  if s.mustWipeVertexAttributes then
    let s := { s with mustWipeVertexAttributes := false }
    (List.range s.caps.maxVertexAttribs).foldl (fun acc i => disableAttributeByIndex acc i) s
  else
    (List.range s.vertexAttribArraysEnabled.length).foldl
      (fun acc i =>
        if i ≥ s.caps.maxVertexAttribs || !(jsArrGetBool acc.vertexAttribArraysEnabled i) then
          acc
        else
          disableAttributeByIndex acc i)
      s

/-- Modelled from the spec: `resetTextureCache` is defined in
`AbstractEngine`, whose source is not among the provided files.  Per the
spec, the wipe "forcibly resets every cached value to an unknown/unset
sentinel": every bound-texture cache slot is reset and the current texture
channel is forgotten. -/
def resetTextureCache (s : EngineState) : EngineState :=
  { s with boundTexturesCache := s.boundTexturesCache.map (fun p => (p.1, none)),
           currentTextureChannel := -1 }

/-- `ThinEngine.wipeCaches(bruteForce)`: returns immediately when
`preventCacheWipeBetweenFrames` is set and `bruteForce` is not; otherwise
resets the effect/viewport caches, unbinds the VAO, performs the brute-force
resets when requested, and finally resets the vertex- and index-buffer
bindings.  The stencil, depth-culling and alpha state-object resets of the
brute-force branch act on state objects whose classes are outside the
embedded state; the two `gl.pixelStorei` calls of that block are recorded. -/
def wipeCaches (s : EngineState) (bruteForce : Bool) : EngineState :=
  if s.preventCacheWipeBetweenFrames && !bruteForce then s
  else
    let s := { s with currentEffect := none,
                      viewportX := 0, viewportY := 0, viewportZ := 0, viewportW := 0 }
    let s := _unbindVertexArrayObject s
    let s :=
      if bruteForce then
        let s := { s with currentProgram := none }
        let s := resetTextureCache s
        let s := { s with colorWrite := true, colorWriteChanged := true,
                          unpackFlipYCached := none }
        let s := emit s (.pixelStorei glUNPACK_COLORSPACE_CONVERSION_WEBGL glNONE)
        let s := emit s (.pixelStorei glUNPACK_PREMULTIPLY_ALPHA_WEBGL 0)
        let s := { s with mustWipeVertexAttributes := true }
        unbindAllAttributes s
      else s
    let s := _resetVertexBufferBinding s
    let s := { s with cachedIndexBuffer := none, cachedEffectForVertexBuffers := .null }
    bindIndexBuffer s none

/-- The memoization key computed by `createEffect`:
`vertex + "+" + fragment + "@" + fullDefines`. -/
def effectKey (vertex fragment fullDefines : String) : String :=
  vertex ++ "+" ++ fragment ++ "@" ++ fullDefines

/-- The claimed memoization key, stated for comparison: the concatenation
vertex-source-id + fragment-source-id + "@" + fully-expanded-defines, with
no separator between the two source ids. -/
def claimedEffectKey (vertex fragment fullDefines : String) : String :=
  vertex ++ fragment ++ "@" ++ fullDefines

/-- The defines expansion of `createEffect`:
`fullDefines = (defines ?? "") + globalDefines-if-truthy`. -/
def fullDefinesOf (defines : Option String) (globalDefines : String) : String :=
  let fullDefines := defines.getD ""
  if globalDefines ≠ "" then fullDefines ++ globalDefines else fullDefines

/-- `ThinEngine.createEffect` restricted to the compiled-effects memoization
it implements (the engine is queried for its global defines; the `Effect`
constructor itself lives outside the provided source and is represented by a
fresh identifier whose reference count starts at 1, matching the spec's
"reference-counted by the number of live Effect consumers").  A cache hit
returns the stored effect after incrementing its `_refCount`; a cache miss
stores a fresh effect under the key. -/
def createEffect (s : EngineState) (vertex fragment : String) (defines : Option String)
    (globalDefines : String) : EngineState × Nat :=
  let fullDefines := fullDefinesOf defines globalDefines
  let name := effectKey vertex fragment fullDefines
  match assocGet s.compiledEffects name with
  | some compiledEffect =>
    let r0 := (assocGet s.effectRefCounts compiledEffect).getD 0
    let s := { s with effectRefCounts := assocSet s.effectRefCounts compiledEffect (r0 + 1) }
    (s, compiledEffect)
  | none =>
    let effect := s.nextId
    let s := { s with nextId := s.nextId + 1 }
    let s := { s with compiledEffects := assocSet s.compiledEffects name effect }
    let s := { s with effectRefCounts := assocSet s.effectRefCounts effect 1 }
    (s, effect)

/-- `ThinEngine._bindIndexBufferWithCache(indexBuffer)`: a null argument
returns immediately; otherwise binds through the cached index buffer and
records the element width of the bound buffer. -/
def _bindIndexBufferWithCache (s : EngineState) (indexBuffer : Option Nat) : EngineState :=
  match indexBuffer with
  | none => s
  | some ib =>
    if s.cachedIndexBuffer ≠ some ib then
      let s := { s with cachedIndexBuffer := some ib }
      let s := bindIndexBuffer s (some ib)
      { s with uintIndicesCurrentlySet := (getBuffer s ib).is32Bits }
    else
      s

/-- `ThinEngine._vertexAttribPointer(buffer, indx, size, type, normalized,
stride, offset)`: diffs the cached attribute-pointer tuple and re-issues the
underlying pointer-setup call only when some field changed (or a VAO
recording is in progress); a missing pointer entry returns immediately. -/
def _vertexAttribPointer (s : EngineState) (buffer : Nat) (indx : Nat) (size ty : Nat)
    (normalized : Bool) (stride offset : Nat) : EngineState :=
  match s.currentBufferPointers.get? indx with
  | none => s
  | some pointer =>
    let (pointer1, changed) :=
      if !pointer.active then
        (({ active := true, index := Int.ofNat indx, size := size, ty := ty,
            normalized := normalized, stride := stride, offset := offset,
            buffer := buffer } : BufferPointer), true)
      else
        let c := pointer.buffer != buffer || pointer.size != size || pointer.ty != ty ||
                 pointer.normalized != normalized || pointer.stride != stride ||
                 pointer.offset != offset
        ({ pointer with buffer := buffer, size := size, ty := ty, normalized := normalized, stride := stride, offset := offset }, c)
    let s := { s with currentBufferPointers := s.currentBufferPointers.set indx pointer1 }
    if changed || s.vaoRecordInProgress then
      let s := bindArrayBuffer s (some buffer)
      if ty == glUNSIGNED_INT || ty == glINT then
        emit s (.vertexAttribIPointer (Int.ofNat indx) size ty stride offset)
      else
        emit s (.vertexAttribPointer (Int.ofNat indx) size ty normalized stride offset)
    else
      s

/-- The `VertexBuffer` fields read by `_bindVertexBuffersAttributes` through
its accessors (`getBuffer`, `getSize`, `type`, `normalized`, `byteStride`,
`byteOffset`, `getIsInstanced`, `getInstanceDivisor`).  The `VertexBuffer`
class lives outside the provided engine source; its accessors are plain
getters over these fields. -/
structure VertexBuffer where
  bufferId : Option Nat
  size : Nat
  ty : Nat
  normalized : Bool
  byteStride : Nat
  byteOffset : Nat
  isInstanced : Bool
  instanceDivisor : Nat
deriving DecidableEq, Repr

/-- The `Effect` reflection data read by the binding path
(`getAttributesNames`, `getAttributeLocation`); the `Effect` class lives
outside the provided engine source.  Per the spec the effect carries the
program's attribute reflection data, `-1` marking a semantic with no
location in the program; `id` is the object's identity for the `!==`
comparison of `bindBuffers`. -/
structure EffectRec where
  id : Nat
  attributesNames : List String
  attributeLocations : List Int
deriving DecidableEq, Repr

/-- A `{ [key: string]: Nullable<VertexBuffer> }` dictionary; reading an
absent key yields `undefined`, written entries may hold `null`. -/
def vbLookup (m : List (String × Option VertexBuffer)) (ai : String) :
    Option VertexBuffer :=
  (assocGet m ai).bind id

/-- `ThinEngine._bindVertexBuffersAttributes(vertexBuffers, effect,
overrideVertexBuffers)`: unbinds the VAO (outside a recording), disables the
previously enabled attributes, then walks the effect's attribute list,
silently skipping semantics with no location or no supplied buffer, enabling
and pointing each resolved attribute. -/
def _bindVertexBuffersAttributes (s : EngineState)
    (vertexBuffers : List (String × Option VertexBuffer)) (effect : EffectRec)
    (overrideVertexBuffers : Option (List (String × Option VertexBuffer))) :
    EngineState :=
  let attributes := effect.attributesNames
  let s := if !s.vaoRecordInProgress then _unbindVertexArrayObject s else s
  let s := unbindAllAttributes s
  (List.range attributes.length).foldl
    (fun s index =>
      let order := effect.attributeLocations.getD index (-1)
      if order ≥ 0 then
        let ai := attributes.getD index ""
        let vertexBuffer :=
          match overrideVertexBuffers with
          | some ovb =>
            match vbLookup ovb ai with
            | some vb => some vb
            | none => vbLookup vertexBuffers ai
          | none => vbLookup vertexBuffers ai
        match vertexBuffer with
        | none => s
        | some vb =>
          let s := emit s (.enableVertexAttribArray order)
          let s :=
            if !s.vaoRecordInProgress then
              { s with vertexAttribArraysEnabled :=
                  jsArrSetBool s.vertexAttribArraysEnabled order.toNat true }
            else s
          match vb.bufferId with
          | none => s
          | some buffer =>
            let s := _vertexAttribPointer s buffer order.toNat vb.size vb.ty
              vb.normalized vb.byteStride vb.byteOffset
            if vb.isInstanced then
              let s := emit s (.vertexAttribDivisor order vb.instanceDivisor)
              if !s.vaoRecordInProgress then
                { s with
                  currentInstanceLocations := s.currentInstanceLocations ++ [order],
                  currentInstanceBuffers := s.currentInstanceBuffers ++ [buffer] }
              else s
            else s
      else s)
    s

/-- `ThinEngine.bindBuffers(vertexBuffers, indexBuffer, effect,
overrideVertexBuffers)`: re-binds the vertex attributes only when the
vertex-buffer dictionary or the effect differs from the cached pair
(`vertexBuffersId` is the dictionary object's identity), then binds the
index buffer through `_bindIndexBufferWithCache`. -/
def bindBuffers (s : EngineState) (vertexBuffersId : Nat)
    (vertexBuffers : List (String × Option VertexBuffer)) (indexBuffer : Option Nat)
    (effect : EffectRec)
    (overrideVertexBuffers : Option (List (String × Option VertexBuffer))) :
    EngineState :=
  let s :=
    if !(s.cachedVertexBuffers.matches (some vertexBuffersId)) ||
       !(s.cachedEffectForVertexBuffers.matches (some effect.id)) then
      let s := { s with cachedVertexBuffers := .val vertexBuffersId,
                        cachedEffectForVertexBuffers := .val effect.id }
      _bindVertexBuffersAttributes s vertexBuffers effect overrideVertexBuffers
    else s
  _bindIndexBufferWithCache s indexBuffer

/-- The object form of the `options` argument of `_createInternalTexture`
(fields the resolution prefix reads; `undefined` fields fall back to the
defaults exactly as in the source). -/
structure InternalTextureCreationOptions where
  generateMipMaps : Bool
  createMipMaps : Bool
  ty : Option Nat
  samplingMode : Option Nat
  format : Option Nat
  useSRGBBuffer : Option Bool
deriving DecidableEq, Repr

/-- `options` may also be a plain boolean (`generateMipMaps`). -/
inductive TextureOptionsInput where
  | flag (generateMipMaps : Bool)
  | opts (o : InternalTextureCreationOptions)
deriving DecidableEq, Repr

/-- The outcome of the option-resolution prefix of `_createInternalTexture`. -/
structure TextureCreationResolved where
  generateMipMaps : Bool
  ty : Nat
  samplingMode : Nat
  format : Nat
  useSRGBBuffer : Bool
  warnings : List String
deriving DecidableEq, Repr

/-- The warning `_createInternalTexture` logs when float textures are
unsupported and the type is forced to 8-bit. -/
def floatTextureWarning : String :=
  "Float textures are not supported. Type forced to TEXTURETYPE_UNSIGNED_BYTE"

/-- The prefix of `ThinEngine._createInternalTexture(size, options, ...)`
that resolves the texture's type, sampling mode, format and sRGB flag from
the creation options and the capability record: float (resp. half-float)
types without linear-filtering support force nearest sampling with no log;
a float type without float-texture support falls back to 8-bit with a
logged warning (returned in `warnings`).  The remainder of the function
allocates and uploads through the driver; this resolution path is total and
throws no exception. -/
def _createInternalTextureResolve (caps : Caps) (webGLVersion : Nat)
    (isWebGPU : Bool) (options : TextureOptionsInput) : TextureCreationResolved :=
  let (generateMipMaps, ty, samplingMode, format, useSRGBBuffer) :=
    match options with
    | .flag b =>
      (b, TEXTURETYPE_UNSIGNED_BYTE, TEXTURE_TRILINEAR_SAMPLINGMODE, TEXTUREFORMAT_RGBA, false)
    | .opts o =>
      (o.generateMipMaps, o.ty.getD TEXTURETYPE_UNSIGNED_BYTE,
       o.samplingMode.getD TEXTURE_TRILINEAR_SAMPLINGMODE,
       o.format.getD TEXTUREFORMAT_RGBA, o.useSRGBBuffer.getD false)
  let useSRGBBuffer := useSRGBBuffer && (caps.supportSRGBBuffers && (webGLVersion > 1 || isWebGPU))
  let samplingMode :=
    if ty == TEXTURETYPE_FLOAT && !caps.textureFloatLinearFiltering then
      TEXTURE_NEAREST_SAMPLINGMODE
    else if ty == TEXTURETYPE_HALF_FLOAT && !caps.textureHalfFloatLinearFiltering then
      TEXTURE_NEAREST_SAMPLINGMODE
    else samplingMode
  let (ty, warnings) :=
    if ty == TEXTURETYPE_FLOAT && !caps.textureFloat then
      (TEXTURETYPE_UNSIGNED_BYTE, [floatTextureWarning])
    else (ty, ([] : List String))
  { generateMipMaps := generateMipMaps, ty := ty, samplingMode := samplingMode,
    format := format, useSRGBBuffer := useSRGBBuffer, warnings := warnings }

/-- A capability record with every modelled capability available. -/
def defaultCaps : Caps :=
  { uintIndices := true, maxVertexAttribs := 16, textureFloat := true,
    textureFloatLinearFiltering := true, textureHalfFloatLinearFiltering := true,
    supportSRGBBuffers := true }

/-- A freshly initialized engine state: unset caches, empty stores, empty
trace. -/
def baseState : EngineState :=
  { caps := defaultCaps, contextWasLost := false, contextLostNotifications := 0,
    preventCacheWipeBetweenFrames := false, vaoRecordInProgress := false,
    mustWipeVertexAttributes := false, webGLVersion := 2,
    currentProgram := none, currentEffect := none, cachedVertexArrayObject := none,
    boundBufferArray := .undef, boundBufferElement := .undef,
    cachedVertexBuffers := .null, cachedIndexBuffer := none,
    cachedEffectForVertexBuffers := .null, uintIndicesCurrentlySet := false,
    vertexAttribArraysEnabled := [], currentBufferPointers := [],
    currentInstanceLocations := [], currentInstanceBuffers := [],
    boundTexturesCache := [], activeChannel := 0, currentTextureChannel := -1,
    boundUniforms := [], uniformCurrentState := [],
    viewportX := 0, viewportY := 0, viewportZ := 0, viewportW := 0,
    colorWrite := true, colorWriteChanged := false, unpackFlipYCached := none,
    buffers := [], textures := [], compiledEffects := [], effectRefCounts := [],
    nextId := 1, calls := [] }

/-- Recognizes a driver call that binds the element-array-buffer target. -/
def isElementArrayBind : GLCall → Bool
  | .bindBuffer target _ => target == glELEMENT_ARRAY_BUFFER
  | _ => false

/-- `s1` extends `s0` without touching the index-buffer binding state: the
cached index buffer and the element-width flag are unchanged and every newly
issued driver call leaves the element-array-buffer target alone. -/
def IndexIntact (s0 s1 : EngineState) : Prop :=
  s1.cachedIndexBuffer = s0.cachedIndexBuffer ∧
  s1.uintIndicesCurrentlySet = s0.uintIndicesCurrentlySet ∧
  ∃ new, s1.calls = new ++ s0.calls ∧ ∀ c ∈ new, isElementArrayBind c = false

/-- `s1` equals `s0` except for the attribute-disabling fields: the
must-wipe flag, the enabled bits, the cached attribute pointers and the
trace, where every new call is an attribute disable. -/
def AttrFrame (s0 s1 : EngineState) : Prop :=
  ∃ mw en bp new,
    s1 = { s0 with mustWipeVertexAttributes := mw, vertexAttribArraysEnabled := en, currentBufferPointers := bp, calls := new ++ s0.calls } ∧
    ∀ c ∈ new, ∃ i, c = GLCall.disableVertexAttribArray i

/- ------------------------------------------------------------------ -/
/- Helper lemmas                                                       -/
/- ------------------------------------------------------------------ -/

theorem foldl_preserve {α β : Type} {P : α → Prop} {f : α → β → α}
    (h : ∀ a b, P a → P (f a b)) :
    ∀ (l : List β) (a : α), P a → P (l.foldl f a) := by
  intro l
  induction l with
  | nil => intro a ha; exact ha
  | cons x xs ih => intro a ha; exact ih _ (h a x ha)

theorem jsMatches_ofOption {α : Type} [DecidableEq α] (b : Option α) :
    (JsVal.ofOption b).matches b = true := by
  cases b <;> simp [JsVal.ofOption, JsVal.matches]

theorem dictGet_dictSet_self {α : Type} (l : List (Int × Option α)) (k : Int)
    (v : Option α) : dictGet (dictSet l k v) k = JsVal.ofOption v := by
  induction l with
  | nil => cases v <;> simp [dictSet, dictGet, JsVal.ofOption, List.find?]
  | cons p rest ih =>
    by_cases h : p.1 = k
    · cases v <;>
        simp [dictSet, dictGet, JsVal.ofOption, List.find?, h]
    · simpa [dictSet, dictGet, List.find?, h] using ih

theorem dictGet_map_none_matches (l : List (Int × Option Nat)) (k : Int) (t : Nat) :
    (dictGet (l.map fun p => (p.1, (none : Option Nat))) k).matches (some t) = false := by
  induction l with
  | nil => simp [dictGet, JsVal.matches, List.find?]
  | cons p rest ih =>
    by_cases h : p.1 = k
    · simp [dictGet, List.find?, h, JsVal.matches]
    · simpa [dictGet, List.find?, h] using ih

theorem assocGet_assocSet_self {κ α : Type} [DecidableEq κ] (l : List (κ × α))
    (k : κ) (v : α) : assocGet (assocSet l k v) k = some v := by
  induction l with
  | nil => simp [assocSet, assocGet, List.find?]
  | cons p rest ih =>
    by_cases h : p.1 = k
    · simp [assocSet, assocGet, List.find?, h]
    · simpa [assocSet, assocGet, List.find?, h] using ih

theorem assocGet_assocSet_other {κ α : Type} [DecidableEq κ] (l : List (κ × α))
    (k k1 : κ) (v : α) (h : k1 ≠ k) :
    assocGet (assocSet l k v) k1 = assocGet l k1 := by
  induction l with
  | nil => simp [assocSet, assocGet, List.find?, h, Ne.symm h]
  | cons p rest ih =>
    by_cases hp : p.1 = k
    · subst hp
      simp [assocSet, assocGet, List.find?, h, Ne.symm h]
    · by_cases hp1 : p.1 = k1
      · simp [assocSet, assocGet, List.find?, hp, hp1, h]
      · simpa [assocSet, assocGet, List.find?, hp, hp1] using ih

theorem getBoundBuffer_setBoundBuffer_self (s : EngineState) (t : Nat) (v : JsVal Nat) :
    getBoundBuffer (setBoundBuffer s t v) t = v := by
  unfold getBoundBuffer setBoundBuffer
  split <;> simp

theorem setBoundBuffer_vao (s : EngineState) (t : Nat) (v : JsVal Nat) :
    (setBoundBuffer s t v).vaoRecordInProgress = s.vaoRecordInProgress := by
  unfold setBoundBuffer
  split <;> rfl

theorem setBoundBuffer_calls (s : EngineState) (t : Nat) (v : JsVal Nat) :
    (setBoundBuffer s t v).calls = s.calls := by
  unfold setBoundBuffer
  split <;> rfl

theorem bindBuffer_issues (s : EngineState) (b : Option Nat) (t : Nat)
    (h : (getBoundBuffer s t).matches b = false) :
    _bindBuffer s b t = setBoundBuffer (emit s (.bindBuffer t b)) t (.ofOption b) := by
  unfold _bindBuffer
  simp [h]

theorem bindBuffer_issues_calls (s : EngineState) (b : Option Nat) (t : Nat)
    (h : (getBoundBuffer s t).matches b = false) :
    (_bindBuffer s b t).calls = GLCall.bindBuffer t b :: s.calls := by
  rw [bindBuffer_issues s b t h, setBoundBuffer_calls]
  rfl

theorem bindBuffer_noop (s : EngineState) (b : Option Nat) (t : Nat)
    (hv : s.vaoRecordInProgress = false) (h : (getBoundBuffer s t).matches b = true) :
    _bindBuffer s b t = s := by
  unfold _bindBuffer
  simp [hv, h]

theorem bindBuffer_idem (s : EngineState) (b : Option Nat) (t : Nat)
    (hv : s.vaoRecordInProgress = false) :
    _bindBuffer (_bindBuffer s b t) b t = _bindBuffer s b t := by
  by_cases h : (getBoundBuffer s t).matches b = true
  · rw [bindBuffer_noop s b t hv h, bindBuffer_noop s b t hv h]
  · have hfalse : (getBoundBuffer s t).matches b = false := by
      simpa using h
    rw [bindBuffer_issues s b t hfalse]
    apply bindBuffer_noop
    · rw [setBoundBuffer_vao]
      exact hv
    · rw [getBoundBuffer_setBoundBuffer_self]
      exact jsMatches_ofOption b

theorem setProgram_idem (s : EngineState) (p : Option Nat) :
    _setProgram (_setProgram s p) p = _setProgram s p := by
  unfold _setProgram
  by_cases h : s.currentProgram = p
  · simp [h]
  · simp [h, emit]

theorem unbindVAO_frame (s : EngineState) : ∃ v new,
    _unbindVertexArrayObject s = { s with cachedVertexArrayObject := v, calls := new ++ s.calls } ∧
    ∀ c ∈ new, c = GLCall.bindVertexArray none := by
  unfold _unbindVertexArrayObject
  cases s.cachedVertexArrayObject with
  | none => exact ⟨s.cachedVertexArrayObject, [], rfl, by simp⟩
  | some v0 => exact ⟨none, [GLCall.bindVertexArray none], rfl, by simp⟩

theorem bindBufferOp_array_frame (s : EngineState) (b : Option Nat) : ∃ a new,
    _bindBuffer s b glARRAY_BUFFER = { s with boundBufferArray := a, calls := new ++ s.calls } ∧
    ∀ c ∈ new, ∃ r, c = GLCall.bindBuffer glARRAY_BUFFER r := by
  unfold _bindBuffer
  split
  · exact ⟨.ofOption b, [GLCall.bindBuffer glARRAY_BUFFER b], rfl, by simp⟩
  · exact ⟨s.boundBufferArray, [], rfl, by simp⟩

theorem bindBufferOp_element_frame (s : EngineState) (b : Option Nat) : ∃ e new,
    _bindBuffer s b glELEMENT_ARRAY_BUFFER = { s with boundBufferElement := e, calls := new ++ s.calls } ∧
    ∀ c ∈ new, ∃ r, c = GLCall.bindBuffer glELEMENT_ARRAY_BUFFER r := by
  unfold _bindBuffer
  split
  · exact ⟨.ofOption b, [GLCall.bindBuffer glELEMENT_ARRAY_BUFFER b], rfl, by simp⟩
  · exact ⟨s.boundBufferElement, [], rfl, by simp⟩

theorem matches_none_iff (j : JsVal Nat) : j.matches none = true ↔ j = .null := by
  cases j <;> simp [JsVal.matches]

@[simp] theorem uVAO_currentProgram (s : EngineState) :
    (_unbindVertexArrayObject s).currentProgram = s.currentProgram := by
  unfold _unbindVertexArrayObject; cases s.cachedVertexArrayObject <;> rfl

@[simp] theorem uVAO_currentEffect (s : EngineState) :
    (_unbindVertexArrayObject s).currentEffect = s.currentEffect := by
  unfold _unbindVertexArrayObject; cases s.cachedVertexArrayObject <;> rfl

@[simp] theorem uVAO_boundBufferArray (s : EngineState) :
    (_unbindVertexArrayObject s).boundBufferArray = s.boundBufferArray := by
  unfold _unbindVertexArrayObject; cases s.cachedVertexArrayObject <;> rfl

@[simp] theorem uVAO_boundBufferElement (s : EngineState) :
    (_unbindVertexArrayObject s).boundBufferElement = s.boundBufferElement := by
  unfold _unbindVertexArrayObject; cases s.cachedVertexArrayObject <;> rfl

@[simp] theorem uVAO_boundTexturesCache (s : EngineState) :
    (_unbindVertexArrayObject s).boundTexturesCache = s.boundTexturesCache := by
  unfold _unbindVertexArrayObject; cases s.cachedVertexArrayObject <;> rfl

@[simp] theorem uVAO_textures (s : EngineState) :
    (_unbindVertexArrayObject s).textures = s.textures := by
  unfold _unbindVertexArrayObject; cases s.cachedVertexArrayObject <;> rfl

@[simp] theorem uVAO_activeChannel (s : EngineState) :
    (_unbindVertexArrayObject s).activeChannel = s.activeChannel := by
  unfold _unbindVertexArrayObject; cases s.cachedVertexArrayObject <;> rfl

@[simp] theorem uVAO_currentTextureChannel (s : EngineState) :
    (_unbindVertexArrayObject s).currentTextureChannel = s.currentTextureChannel := by
  unfold _unbindVertexArrayObject; cases s.cachedVertexArrayObject <;> rfl

@[simp] theorem uVAO_cachedIndexBuffer (s : EngineState) :
    (_unbindVertexArrayObject s).cachedIndexBuffer = s.cachedIndexBuffer := by
  unfold _unbindVertexArrayObject; cases s.cachedVertexArrayObject <;> rfl

@[simp] theorem uVAO_uintIndices (s : EngineState) :
    (_unbindVertexArrayObject s).uintIndicesCurrentlySet = s.uintIndicesCurrentlySet := by
  unfold _unbindVertexArrayObject; cases s.cachedVertexArrayObject <;> rfl

@[simp] theorem uVAO_buffers (s : EngineState) :
    (_unbindVertexArrayObject s).buffers = s.buffers := by
  unfold _unbindVertexArrayObject; cases s.cachedVertexArrayObject <;> rfl

@[simp] theorem uVAO_caps (s : EngineState) :
    (_unbindVertexArrayObject s).caps = s.caps := by
  unfold _unbindVertexArrayObject; cases s.cachedVertexArrayObject <;> rfl

@[simp] theorem uVAO_vao (s : EngineState) :
    (_unbindVertexArrayObject s).vaoRecordInProgress = s.vaoRecordInProgress := by
  unfold _unbindVertexArrayObject; cases s.cachedVertexArrayObject <;> rfl

@[simp] theorem uVAO_contextWasLost (s : EngineState) :
    (_unbindVertexArrayObject s).contextWasLost = s.contextWasLost := by
  unfold _unbindVertexArrayObject; cases s.cachedVertexArrayObject <;> rfl

@[simp] theorem bb_currentProgram (s : EngineState) (b : Option Nat) (t : Nat) :
    (_bindBuffer s b t).currentProgram = s.currentProgram := by
  unfold _bindBuffer setBoundBuffer emit
  split
  · split <;> rfl
  · rfl

@[simp] theorem bb_currentEffect (s : EngineState) (b : Option Nat) (t : Nat) :
    (_bindBuffer s b t).currentEffect = s.currentEffect := by
  unfold _bindBuffer setBoundBuffer emit
  split
  · split <;> rfl
  · rfl

@[simp] theorem bb_boundTexturesCache (s : EngineState) (b : Option Nat) (t : Nat) :
    (_bindBuffer s b t).boundTexturesCache = s.boundTexturesCache := by
  unfold _bindBuffer setBoundBuffer emit
  split
  · split <;> rfl
  · rfl

@[simp] theorem bb_textures (s : EngineState) (b : Option Nat) (t : Nat) :
    (_bindBuffer s b t).textures = s.textures := by
  unfold _bindBuffer setBoundBuffer emit
  split
  · split <;> rfl
  · rfl

@[simp] theorem bb_activeChannel (s : EngineState) (b : Option Nat) (t : Nat) :
    (_bindBuffer s b t).activeChannel = s.activeChannel := by
  unfold _bindBuffer setBoundBuffer emit
  split
  · split <;> rfl
  · rfl

@[simp] theorem bb_currentTextureChannel (s : EngineState) (b : Option Nat) (t : Nat) :
    (_bindBuffer s b t).currentTextureChannel = s.currentTextureChannel := by
  unfold _bindBuffer setBoundBuffer emit
  split
  · split <;> rfl
  · rfl

@[simp] theorem bb_cachedIndexBuffer (s : EngineState) (b : Option Nat) (t : Nat) :
    (_bindBuffer s b t).cachedIndexBuffer = s.cachedIndexBuffer := by
  unfold _bindBuffer setBoundBuffer emit
  split
  · split <;> rfl
  · rfl

@[simp] theorem bb_uintIndices (s : EngineState) (b : Option Nat) (t : Nat) :
    (_bindBuffer s b t).uintIndicesCurrentlySet = s.uintIndicesCurrentlySet := by
  unfold _bindBuffer setBoundBuffer emit
  split
  · split <;> rfl
  · rfl

@[simp] theorem bb_buffers (s : EngineState) (b : Option Nat) (t : Nat) :
    (_bindBuffer s b t).buffers = s.buffers := by
  unfold _bindBuffer setBoundBuffer emit
  split
  · split <;> rfl
  · rfl

@[simp] theorem bb_caps (s : EngineState) (b : Option Nat) (t : Nat) :
    (_bindBuffer s b t).caps = s.caps := by
  unfold _bindBuffer setBoundBuffer emit
  split
  · split <;> rfl
  · rfl

@[simp] theorem bb_vao (s : EngineState) (b : Option Nat) (t : Nat) :
    (_bindBuffer s b t).vaoRecordInProgress = s.vaoRecordInProgress := by
  unfold _bindBuffer setBoundBuffer emit
  split
  · split <;> rfl
  · rfl

@[simp] theorem bb_contextWasLost (s : EngineState) (b : Option Nat) (t : Nat) :
    (_bindBuffer s b t).contextWasLost = s.contextWasLost := by
  unfold _bindBuffer setBoundBuffer emit
  split
  · split <;> rfl
  · rfl

@[simp] theorem bb_cachedVAO (s : EngineState) (b : Option Nat) (t : Nat) :
    (_bindBuffer s b t).cachedVertexArrayObject = s.cachedVertexArrayObject := by
  unfold _bindBuffer setBoundBuffer emit
  split
  · split <;> rfl
  · rfl

@[simp] theorem bb_array_boundBufferElement (s : EngineState) (b : Option Nat) :
    (_bindBuffer s b glARRAY_BUFFER).boundBufferElement = s.boundBufferElement := by
  unfold _bindBuffer setBoundBuffer emit
  split
  · simp [glARRAY_BUFFER, glELEMENT_ARRAY_BUFFER]
  · rfl

@[simp] theorem bb_element_boundBufferArray (s : EngineState) (b : Option Nat) :
    (_bindBuffer s b glELEMENT_ARRAY_BUFFER).boundBufferArray = s.boundBufferArray := by
  unfold _bindBuffer setBoundBuffer emit
  split
  · simp
  · rfl

theorem bb_array_none_null (s : EngineState) :
    (_bindBuffer s none glARRAY_BUFFER).boundBufferArray = JsVal.null := by
  unfold _bindBuffer setBoundBuffer emit
  split
  · simp [glARRAY_BUFFER, glELEMENT_ARRAY_BUFFER, JsVal.ofOption]
  · next h =>
    simp only [Bool.or_eq_true, Bool.not_eq_true', not_or] at h
    have h2 := h.2
    simp only [Bool.not_eq_false] at h2
    exact (matches_none_iff _).mp h2

theorem bb_element_none_null (s : EngineState) :
    (_bindBuffer s none glELEMENT_ARRAY_BUFFER).boundBufferElement = JsVal.null := by
  unfold _bindBuffer setBoundBuffer emit
  split
  · simp [JsVal.ofOption]
  · next h =>
    simp only [Bool.or_eq_true, Bool.not_eq_true', not_or] at h
    have h2 := h.2
    simp only [Bool.not_eq_false] at h2
    exact (matches_none_iff _).mp h2

@[simp] theorem bab_currentProgram (s : EngineState) (b : Option Nat) :
    (bindArrayBuffer s b).currentProgram = s.currentProgram := by
  unfold bindArrayBuffer; split <;> simp

@[simp] theorem bab_currentEffect (s : EngineState) (b : Option Nat) :
    (bindArrayBuffer s b).currentEffect = s.currentEffect := by
  unfold bindArrayBuffer; split <;> simp

@[simp] theorem bab_boundBufferElement (s : EngineState) (b : Option Nat) :
    (bindArrayBuffer s b).boundBufferElement = s.boundBufferElement := by
  unfold bindArrayBuffer; split <;> simp

@[simp] theorem bab_boundTexturesCache (s : EngineState) (b : Option Nat) :
    (bindArrayBuffer s b).boundTexturesCache = s.boundTexturesCache := by
  unfold bindArrayBuffer; split <;> simp

@[simp] theorem bab_textures (s : EngineState) (b : Option Nat) :
    (bindArrayBuffer s b).textures = s.textures := by
  unfold bindArrayBuffer; split <;> simp

@[simp] theorem bab_activeChannel (s : EngineState) (b : Option Nat) :
    (bindArrayBuffer s b).activeChannel = s.activeChannel := by
  unfold bindArrayBuffer; split <;> simp

@[simp] theorem bab_currentTextureChannel (s : EngineState) (b : Option Nat) :
    (bindArrayBuffer s b).currentTextureChannel = s.currentTextureChannel := by
  unfold bindArrayBuffer; split <;> simp

@[simp] theorem bab_cachedIndexBuffer (s : EngineState) (b : Option Nat) :
    (bindArrayBuffer s b).cachedIndexBuffer = s.cachedIndexBuffer := by
  unfold bindArrayBuffer; split <;> simp

@[simp] theorem bab_uintIndices (s : EngineState) (b : Option Nat) :
    (bindArrayBuffer s b).uintIndicesCurrentlySet = s.uintIndicesCurrentlySet := by
  unfold bindArrayBuffer; split <;> simp

@[simp] theorem bab_buffers (s : EngineState) (b : Option Nat) :
    (bindArrayBuffer s b).buffers = s.buffers := by
  unfold bindArrayBuffer; split <;> simp

@[simp] theorem bab_caps (s : EngineState) (b : Option Nat) :
    (bindArrayBuffer s b).caps = s.caps := by
  unfold bindArrayBuffer; split <;> simp

@[simp] theorem bab_vao (s : EngineState) (b : Option Nat) :
    (bindArrayBuffer s b).vaoRecordInProgress = s.vaoRecordInProgress := by
  unfold bindArrayBuffer; split <;> simp

theorem bab_none_null (s : EngineState) :
    (bindArrayBuffer s none).boundBufferArray = JsVal.null := by
  unfold bindArrayBuffer; split <;> exact bb_array_none_null _

@[simp] theorem bib_currentProgram (s : EngineState) (b : Option Nat) :
    (bindIndexBuffer s b).currentProgram = s.currentProgram := by
  unfold bindIndexBuffer; split <;> simp

@[simp] theorem bib_currentEffect (s : EngineState) (b : Option Nat) :
    (bindIndexBuffer s b).currentEffect = s.currentEffect := by
  unfold bindIndexBuffer; split <;> simp

@[simp] theorem bib_boundBufferArray (s : EngineState) (b : Option Nat) :
    (bindIndexBuffer s b).boundBufferArray = s.boundBufferArray := by
  unfold bindIndexBuffer; split <;> simp

@[simp] theorem bib_boundTexturesCache (s : EngineState) (b : Option Nat) :
    (bindIndexBuffer s b).boundTexturesCache = s.boundTexturesCache := by
  unfold bindIndexBuffer; split <;> simp

@[simp] theorem bib_textures (s : EngineState) (b : Option Nat) :
    (bindIndexBuffer s b).textures = s.textures := by
  unfold bindIndexBuffer; split <;> simp

@[simp] theorem bib_activeChannel (s : EngineState) (b : Option Nat) :
    (bindIndexBuffer s b).activeChannel = s.activeChannel := by
  unfold bindIndexBuffer; split <;> simp

@[simp] theorem bib_currentTextureChannel (s : EngineState) (b : Option Nat) :
    (bindIndexBuffer s b).currentTextureChannel = s.currentTextureChannel := by
  unfold bindIndexBuffer; split <;> simp

@[simp] theorem bib_cachedIndexBuffer (s : EngineState) (b : Option Nat) :
    (bindIndexBuffer s b).cachedIndexBuffer = s.cachedIndexBuffer := by
  unfold bindIndexBuffer; split <;> simp

@[simp] theorem bib_uintIndices (s : EngineState) (b : Option Nat) :
    (bindIndexBuffer s b).uintIndicesCurrentlySet = s.uintIndicesCurrentlySet := by
  unfold bindIndexBuffer; split <;> simp

@[simp] theorem bib_buffers (s : EngineState) (b : Option Nat) :
    (bindIndexBuffer s b).buffers = s.buffers := by
  unfold bindIndexBuffer; split <;> simp

@[simp] theorem bib_caps (s : EngineState) (b : Option Nat) :
    (bindIndexBuffer s b).caps = s.caps := by
  unfold bindIndexBuffer; split <;> simp

@[simp] theorem bib_vao (s : EngineState) (b : Option Nat) :
    (bindIndexBuffer s b).vaoRecordInProgress = s.vaoRecordInProgress := by
  unfold bindIndexBuffer; split <;> simp

theorem bib_none_null (s : EngineState) :
    (bindIndexBuffer s none).boundBufferElement = JsVal.null := by
  unfold bindIndexBuffer; split <;> exact bb_element_none_null _

@[simp] theorem rvb_currentProgram (s : EngineState) :
    (_resetVertexBufferBinding s).currentProgram = s.currentProgram := by
  unfold _resetVertexBufferBinding; simp

@[simp] theorem rvb_currentEffect (s : EngineState) :
    (_resetVertexBufferBinding s).currentEffect = s.currentEffect := by
  unfold _resetVertexBufferBinding; simp

@[simp] theorem rvb_boundBufferElement (s : EngineState) :
    (_resetVertexBufferBinding s).boundBufferElement = s.boundBufferElement := by
  unfold _resetVertexBufferBinding; simp

@[simp] theorem rvb_boundTexturesCache (s : EngineState) :
    (_resetVertexBufferBinding s).boundTexturesCache = s.boundTexturesCache := by
  unfold _resetVertexBufferBinding; simp

@[simp] theorem rvb_textures (s : EngineState) :
    (_resetVertexBufferBinding s).textures = s.textures := by
  unfold _resetVertexBufferBinding; simp

@[simp] theorem rvb_activeChannel (s : EngineState) :
    (_resetVertexBufferBinding s).activeChannel = s.activeChannel := by
  unfold _resetVertexBufferBinding; simp

@[simp] theorem rvb_currentTextureChannel (s : EngineState) :
    (_resetVertexBufferBinding s).currentTextureChannel = s.currentTextureChannel := by
  unfold _resetVertexBufferBinding; simp

@[simp] theorem rvb_cachedIndexBuffer (s : EngineState) :
    (_resetVertexBufferBinding s).cachedIndexBuffer = s.cachedIndexBuffer := by
  unfold _resetVertexBufferBinding; simp

@[simp] theorem rvb_uintIndices (s : EngineState) :
    (_resetVertexBufferBinding s).uintIndicesCurrentlySet = s.uintIndicesCurrentlySet := by
  unfold _resetVertexBufferBinding; simp

@[simp] theorem rvb_buffers (s : EngineState) :
    (_resetVertexBufferBinding s).buffers = s.buffers := by
  unfold _resetVertexBufferBinding; simp

@[simp] theorem rvb_caps (s : EngineState) :
    (_resetVertexBufferBinding s).caps = s.caps := by
  unfold _resetVertexBufferBinding; simp

@[simp] theorem rvb_vao (s : EngineState) :
    (_resetVertexBufferBinding s).vaoRecordInProgress = s.vaoRecordInProgress := by
  unfold _resetVertexBufferBinding; simp

theorem rvb_bba_null (s : EngineState) :
    (_resetVertexBufferBinding s).boundBufferArray = JsVal.null := by
  unfold _resetVertexBufferBinding
  exact bab_none_null s

@[simp] theorem rib_boundBufferArray (s : EngineState) :
    (_resetIndexBufferBinding s).boundBufferArray = s.boundBufferArray := by
  unfold _resetIndexBufferBinding; simp

@[simp] theorem rib_buffers (s : EngineState) :
    (_resetIndexBufferBinding s).buffers = s.buffers := by
  unfold _resetIndexBufferBinding; simp

@[simp] theorem rib_caps (s : EngineState) :
    (_resetIndexBufferBinding s).caps = s.caps := by
  unfold _resetIndexBufferBinding; simp

theorem rib_cachedIndexBuffer_none (s : EngineState) :
    (_resetIndexBufferBinding s).cachedIndexBuffer = none := rfl

theorem rib_bbe_null (s : EngineState) :
    (_resetIndexBufferBinding s).boundBufferElement = JsVal.null := by
  unfold _resetIndexBufferBinding
  exact bib_none_null s

@[simp] theorem setBuffer_calls (s : EngineState) (i : Nat) (v : BufferRec) :
    (setBuffer s i v).calls = s.calls := rfl

@[simp] theorem setBuffer_boundBufferArray (s : EngineState) (i : Nat) (v : BufferRec) :
    (setBuffer s i v).boundBufferArray = s.boundBufferArray := rfl

@[simp] theorem setBuffer_boundBufferElement (s : EngineState) (i : Nat) (v : BufferRec) :
    (setBuffer s i v).boundBufferElement = s.boundBufferElement := rfl

@[simp] theorem setBuffer_cachedIndexBuffer (s : EngineState) (i : Nat) (v : BufferRec) :
    (setBuffer s i v).cachedIndexBuffer = s.cachedIndexBuffer := rfl

@[simp] theorem setBuffer_caps (s : EngineState) (i : Nat) (v : BufferRec) :
    (setBuffer s i v).caps = s.caps := rfl

@[simp] theorem getBuffer_setBuffer_self (s : EngineState) (i : Nat) (v : BufferRec) :
    getBuffer (setBuffer s i v) i = v := by
  unfold getBuffer setBuffer
  simp [assocGet_assocSet_self]

theorem attrFrame_rfl (s : EngineState) : AttrFrame s s :=
  ⟨s.mustWipeVertexAttributes, s.vertexAttribArraysEnabled, s.currentBufferPointers, [],
    rfl, by simp⟩

theorem attrFrame_disable (s0 s : EngineState) (i : Nat) (h : AttrFrame s0 s) :
    AttrFrame s0 (disableAttributeByIndex s i) := by
  obtain ⟨mw, en, bp, new, heq, hsafe⟩ := h
  subst heq
  refine ⟨mw, _, _, GLCall.disableVertexAttribArray i :: new, rfl, ?_⟩
  intro c hc
  rcases List.mem_cons.mp hc with h1 | h1
  · exact ⟨i, h1⟩
  · exact hsafe c h1

theorem attrFrame_unbindAll (s : EngineState) : AttrFrame s (unbindAllAttributes s) := by
  unfold unbindAllAttributes
  split
  · refine foldl_preserve (fun a i pa => attrFrame_disable s a i pa) _ _ ?_
    exact ⟨false, s.vertexAttribArraysEnabled, s.currentBufferPointers, [], rfl, by simp⟩
  · refine foldl_preserve (fun a i pa => ?_) _ _ (attrFrame_rfl s)
    dsimp only
    split
    · exact pa
    · exact attrFrame_disable s a i pa

theorem attrFrame_fields {s0 s1 : EngineState} (h : AttrFrame s0 s1) :
    s1.currentProgram = s0.currentProgram ∧ s1.currentEffect = s0.currentEffect ∧
    s1.boundBufferArray = s0.boundBufferArray ∧ s1.boundBufferElement = s0.boundBufferElement ∧
    s1.boundTexturesCache = s0.boundTexturesCache ∧ s1.textures = s0.textures ∧
    s1.activeChannel = s0.activeChannel ∧ s1.currentTextureChannel = s0.currentTextureChannel ∧
    s1.cachedIndexBuffer = s0.cachedIndexBuffer ∧
    s1.uintIndicesCurrentlySet = s0.uintIndicesCurrentlySet ∧
    s1.buffers = s0.buffers ∧ s1.caps = s0.caps ∧
    s1.vaoRecordInProgress = s0.vaoRecordInProgress ∧
    s1.cachedVertexArrayObject = s0.cachedVertexArrayObject ∧
    s1.cachedVertexBuffers = s0.cachedVertexBuffers ∧
    s1.cachedEffectForVertexBuffers = s0.cachedEffectForVertexBuffers := by
  obtain ⟨mw, en, bp, new, heq, _⟩ := h
  subst heq
  exact ⟨rfl, rfl, rfl, rfl, rfl, rfl, rfl, rfl, rfl, rfl, rfl, rfl, rfl, rfl, rfl, rfl⟩

@[simp] theorem uaa_currentProgram (s : EngineState) :
    (unbindAllAttributes s).currentProgram = s.currentProgram :=
  (attrFrame_fields (attrFrame_unbindAll s)).1

@[simp] theorem uaa_currentEffect (s : EngineState) :
    (unbindAllAttributes s).currentEffect = s.currentEffect :=
  (attrFrame_fields (attrFrame_unbindAll s)).2.1

@[simp] theorem uaa_boundBufferArray (s : EngineState) :
    (unbindAllAttributes s).boundBufferArray = s.boundBufferArray :=
  (attrFrame_fields (attrFrame_unbindAll s)).2.2.1

@[simp] theorem uaa_boundBufferElement (s : EngineState) :
    (unbindAllAttributes s).boundBufferElement = s.boundBufferElement :=
  (attrFrame_fields (attrFrame_unbindAll s)).2.2.2.1

@[simp] theorem uaa_boundTexturesCache (s : EngineState) :
    (unbindAllAttributes s).boundTexturesCache = s.boundTexturesCache :=
  (attrFrame_fields (attrFrame_unbindAll s)).2.2.2.2.1

@[simp] theorem uaa_textures (s : EngineState) :
    (unbindAllAttributes s).textures = s.textures :=
  (attrFrame_fields (attrFrame_unbindAll s)).2.2.2.2.2.1

@[simp] theorem uaa_activeChannel (s : EngineState) :
    (unbindAllAttributes s).activeChannel = s.activeChannel :=
  (attrFrame_fields (attrFrame_unbindAll s)).2.2.2.2.2.2.1

@[simp] theorem uaa_currentTextureChannel (s : EngineState) :
    (unbindAllAttributes s).currentTextureChannel = s.currentTextureChannel :=
  (attrFrame_fields (attrFrame_unbindAll s)).2.2.2.2.2.2.2.1

@[simp] theorem uaa_cachedIndexBuffer (s : EngineState) :
    (unbindAllAttributes s).cachedIndexBuffer = s.cachedIndexBuffer :=
  (attrFrame_fields (attrFrame_unbindAll s)).2.2.2.2.2.2.2.2.1

@[simp] theorem uaa_uintIndices (s : EngineState) :
    (unbindAllAttributes s).uintIndicesCurrentlySet = s.uintIndicesCurrentlySet :=
  (attrFrame_fields (attrFrame_unbindAll s)).2.2.2.2.2.2.2.2.2.1

@[simp] theorem uaa_buffers (s : EngineState) :
    (unbindAllAttributes s).buffers = s.buffers :=
  (attrFrame_fields (attrFrame_unbindAll s)).2.2.2.2.2.2.2.2.2.2.1

@[simp] theorem uaa_caps (s : EngineState) :
    (unbindAllAttributes s).caps = s.caps :=
  (attrFrame_fields (attrFrame_unbindAll s)).2.2.2.2.2.2.2.2.2.2.2.1

@[simp] theorem uaa_vao (s : EngineState) :
    (unbindAllAttributes s).vaoRecordInProgress = s.vaoRecordInProgress :=
  (attrFrame_fields (attrFrame_unbindAll s)).2.2.2.2.2.2.2.2.2.2.2.2.1

@[simp] theorem uaa_cachedVAO (s : EngineState) :
    (unbindAllAttributes s).cachedVertexArrayObject = s.cachedVertexArrayObject :=
  (attrFrame_fields (attrFrame_unbindAll s)).2.2.2.2.2.2.2.2.2.2.2.2.2.1

theorem wipeTrue_fields (s : EngineState) :
    (wipeCaches s true).currentProgram = none ∧
    (wipeCaches s true).boundBufferArray = JsVal.null ∧
    (wipeCaches s true).boundBufferElement = JsVal.null ∧
    (wipeCaches s true).boundTexturesCache = s.boundTexturesCache.map (fun p => (p.1, none)) ∧
    (wipeCaches s true).textures = s.textures ∧
    (wipeCaches s true).activeChannel = s.activeChannel := by
  unfold wipeCaches
  simp only [Bool.not_true, Bool.and_false, Bool.false_eq_true, if_false]
  refine ⟨?_, ?_, ?_, ?_, ?_, ?_⟩
  · simp [emit, resetTextureCache]
  · simp [emit, resetTextureCache, rvb_bba_null]
  · exact bib_none_null _
  · simp [emit, resetTextureCache]
  · simp [emit, resetTextureCache]
  · simp [emit, resetTextureCache]

theorem getBuffer_eq_of_buffers {s1 s2 : EngineState} (i : Nat)
    (h : s1.buffers = s2.buffers) : getBuffer s1 i = getBuffer s2 i := by
  unfold getBuffer
  rw [h]

theorem getTexture_eq_of_textures {s1 s2 : EngineState} (t : Nat)
    (h : s1.textures = s2.textures) : getTexture s1 t = getTexture s2 t := by
  unfold getTexture
  rw [h]

theorem matches_some_iff (j : JsVal Nat) (t : Nat) :
    j.matches (some t) = true ↔ j = .val t := by
  cases j <;> simp [JsVal.matches]

theorem act_frame (s : EngineState) : ∃ c new,
    _activateCurrentTexture s = { s with currentTextureChannel := c, calls := new ++ s.calls } := by
  unfold _activateCurrentTexture
  split
  · exact ⟨s.activeChannel, [GLCall.activeTexture (glTEXTURE0 + s.activeChannel)], rfl⟩
  · exact ⟨s.currentTextureChannel, [], rfl⟩

@[simp] theorem act_boundTexturesCache (s : EngineState) :
    (_activateCurrentTexture s).boundTexturesCache = s.boundTexturesCache := by
  obtain ⟨c, new, h⟩ := act_frame s
  rw [h]

@[simp] theorem act_activeChannel (s : EngineState) :
    (_activateCurrentTexture s).activeChannel = s.activeChannel := by
  obtain ⟨c, new, h⟩ := act_frame s
  rw [h]

@[simp] theorem act_textures (s : EngineState) :
    (_activateCurrentTexture s).textures = s.textures := by
  obtain ⟨c, new, h⟩ := act_frame s
  rw [h]

theorem bsu_frame (s : EngineState) (a b : Int) : ∃ ucs new,
    _bindSamplerUniformToChannel s a b = { s with uniformCurrentState := ucs, calls := new ++ s.calls } ∧
    (new = [] ∨ ∃ u, new = [GLCall.uniform1i u b]) := by
  unfold _bindSamplerUniformToChannel
  cases assocGet s.boundUniforms a with
  | none => exact ⟨s.uniformCurrentState, [], rfl, Or.inl rfl⟩
  | some u =>
    dsimp only
    by_cases h : assocGet s.uniformCurrentState u = some b
    · exact ⟨s.uniformCurrentState, [], by rw [if_pos h]; rfl, Or.inl rfl⟩
    · exact ⟨assocSet s.uniformCurrentState u b, [GLCall.uniform1i u b],
        by rw [if_neg h]; rfl, Or.inr ⟨u, rfl⟩⟩

@[simp] theorem bsu_boundTexturesCache (s : EngineState) (a b : Int) :
    (_bindSamplerUniformToChannel s a b).boundTexturesCache = s.boundTexturesCache := by
  obtain ⟨ucs, new, h, _⟩ := bsu_frame s a b
  rw [h]

@[simp] theorem bsu_activeChannel (s : EngineState) (a b : Int) :
    (_bindSamplerUniformToChannel s a b).activeChannel = s.activeChannel := by
  obtain ⟨ucs, new, h, _⟩ := bsu_frame s a b
  rw [h]

@[simp] theorem bsu_textures (s : EngineState) (a b : Int) :
    (_bindSamplerUniformToChannel s a b).textures = s.textures := by
  obtain ⟨ucs, new, h, _⟩ := bsu_frame s a b
  rw [h]

@[simp] theorem bsu_currentTextureChannel (s : EngineState) (a b : Int) :
    (_bindSamplerUniformToChannel s a b).currentTextureChannel = s.currentTextureChannel := by
  obtain ⟨ucs, new, h, _⟩ := bsu_frame s a b
  rw [h]

@[simp] theorem setTextureRec_boundTexturesCache (s : EngineState) (t : Nat) (v : TextureRec) :
    (setTextureRec s t v).boundTexturesCache = s.boundTexturesCache := rfl

@[simp] theorem setTextureRec_activeChannel (s : EngineState) (t : Nat) (v : TextureRec) :
    (setTextureRec s t v).activeChannel = s.activeChannel := rfl

@[simp] theorem setTextureRec_calls (s : EngineState) (t : Nat) (v : TextureRec) :
    (setTextureRec s t v).calls = s.calls := rfl

@[simp] theorem bsu_boundUniforms (s : EngineState) (a b : Int) :
    (_bindSamplerUniformToChannel s a b).boundUniforms = s.boundUniforms := by
  obtain ⟨ucs, new, h, _⟩ := bsu_frame s a b
  rw [h]

@[simp] theorem getTexture_setTextureRec_self (s : EngineState) (t : Nat) (v : TextureRec) :
    getTexture (setTextureRec s t v) t = v := by
  unfold getTexture setTextureRec
  simp [assocGet_assocSet_self]

theorem bsu_calls (s : EngineState) (a b : Int) :
    (_bindSamplerUniformToChannel s a b).calls = s.calls ∨
    ∃ u, (_bindSamplerUniformToChannel s a b).calls = GLCall.uniform1i u b :: s.calls := by
  obtain ⟨ucs, new, h, hor⟩ := bsu_frame s a b
  rcases hor with h1 | ⟨u, h1⟩
  · subst h1
    rw [h]
    exact Or.inl rfl
  · subst h1
    rw [h]
    exact Or.inr ⟨u, rfl⟩

/-- Case analysis of `_bindTextureDirectly(target, texture, false, force)`
for a non-null texture: a cache hit (with `force = false`) issues no
texture-bind call and leaves the binding caches and the texture heap
unchanged (at most a sampler-uniform call goes out); a cache miss on a
non-multiview texture issues the underlying `bindTexture` call, updates the
cached slot and the texture's associated channel; a cache miss on a
multiview texture throws. -/
theorem btd_main (s : EngineState) (tgt t : Nat) (f : Bool) :
    ((dictGet s.boundTexturesCache s.activeChannel).matches (some t) = true ∧ f = false →
      ∃ s2, _bindTextureDirectly s tgt (some t) false f = .ok (s2, false) ∧
        s2.boundTexturesCache = s.boundTexturesCache ∧ s2.textures = s.textures ∧
        s2.activeChannel = s.activeChannel ∧
        s2.currentTextureChannel = s.currentTextureChannel ∧
        s2.boundUniforms = s.boundUniforms ∧
        (s2.calls = s.calls ∨ ∃ u d, s2.calls = GLCall.uniform1i u d :: s.calls)) ∧
    ((!((dictGet s.boundTexturesCache s.activeChannel).matches (some t)) || f) = true →
      (getTexture s t).isMultiview = false →
      ∃ s5 newCalls, _bindTextureDirectly s tgt (some t) false f = .ok (s5, false) ∧
        s5.calls = newCalls ++ s.calls ∧
        GLCall.bindTexture tgt (getTexture s t).hardwareResource ∈ newCalls ∧
        s5.boundTexturesCache = dictSet s.boundTexturesCache s.activeChannel (some t) ∧
        s5.activeChannel = s.activeChannel ∧
        s5.textures = assocSet s.textures t
          { getTexture s t with associatedChannel := s.activeChannel }) ∧
    ((!((dictGet s.boundTexturesCache s.activeChannel).matches (some t)) || f) = true →
      (getTexture s t).isMultiview = true →
      ∃ e, _bindTextureDirectly s tgt (some t) false f = .error e) := by
  refine ⟨?_, ?_, ?_⟩
  · rintro ⟨hm, hf⟩
    subst hf
    unfold _bindTextureDirectly
    simp only [Bool.false_and]
    rw [if_neg (by simp [hm])]
    by_cases hP : (getTexture s t).associatedChannel > -1
    · simp only [hP, decide_True, Bool.not_false, Bool.and_true]
      refine ⟨_, rfl, by simp, by simp, by simp, by simp, by simp, ?_⟩
      rcases bsu_calls s (getTexture s t).associatedChannel s.activeChannel with h1 | ⟨u, h1⟩
      · exact Or.inl h1
      · exact Or.inr ⟨u, s.activeChannel, h1⟩
    · simp only [hP, decide_False, Bool.false_and]
      exact ⟨s, rfl, rfl, rfl, rfl, rfl, rfl, Or.inl rfl⟩
  · intro hcond hmv
    unfold _bindTextureDirectly
    simp only [Bool.false_and]
    rw [if_pos hcond]
    have hmv2 : (getTexture (_activateCurrentTexture s) t).isMultiview = false := by
      rw [getTexture_eq_of_textures t (act_textures s)]
      exact hmv
    rw [hmv2]
    dsimp only
    obtain ⟨cA, newA, heqA⟩ := act_frame s
    rw [heqA]
    by_cases hP : (getTexture s t).associatedChannel > -1
    · simp only [hP, decide_True, Bool.not_false, Bool.and_true, emit,
        getTexture_setTextureRec_self]
      unfold _bindSamplerUniformToChannel
      simp only [setTextureRec]
      cases hq : assocGet s.boundUniforms s.activeChannel with
      | none =>
        refine ⟨_, GLCall.bindTexture tgt (getTexture s t).hardwareResource :: newA,
          rfl, ?_, ?_, ?_, ?_, ?_⟩
        · simp [getTexture]
        · simp
        · rfl
        · rfl
        · simp [getTexture]
      | some u =>
        dsimp only
        by_cases hu : assocGet s.uniformCurrentState u = some s.activeChannel
        · rw [if_pos hu]
          refine ⟨_, GLCall.bindTexture tgt (getTexture s t).hardwareResource :: newA,
            rfl, ?_, ?_, ?_, ?_, ?_⟩
          · simp [getTexture]
          · simp
          · rfl
          · rfl
          · simp [getTexture]
        · rw [if_neg hu]
          refine ⟨_, GLCall.uniform1i u s.activeChannel ::
            GLCall.bindTexture tgt (getTexture s t).hardwareResource :: newA,
            rfl, ?_, ?_, ?_, ?_, ?_⟩
          · simp [getTexture, emit]
          · simp
          · simp [emit]
          · simp [emit]
          · simp [getTexture, emit]
    · simp only [hP, decide_False, Bool.false_and]
      simp only [setTextureRec, emit]
      refine ⟨_, GLCall.bindTexture tgt (getTexture s t).hardwareResource :: newA,
        rfl, ?_, ?_, ?_, ?_, ?_⟩
      · simp [getTexture]
      · simp
      · rfl
      · rfl
      · simp [getTexture]
  · intro hcond hmv
    unfold _bindTextureDirectly
    simp only [Bool.false_and]
    rw [if_pos hcond]
    have hmv2 : (getTexture (_activateCurrentTexture s) t).isMultiview = true := by
      rw [getTexture_eq_of_textures t (act_textures s)]
      exact hmv
    rw [hmv2]
    exact ⟨_, rfl⟩

theorem btd_ok_cached (s : EngineState) (tgt t : Nat) (f : Bool) (s1 : EngineState)
    (w1 : Bool) (h : _bindTextureDirectly s tgt (some t) false f = .ok (s1, w1)) :
    dictGet s1.boundTexturesCache s1.activeChannel = JsVal.val t := by
  obtain ⟨hhit, hmiss, hmv⟩ := btd_main s tgt t f
  by_cases hc : (!((dictGet s.boundTexturesCache s.activeChannel).matches (some t)) || f) = true
  · by_cases hm : (getTexture s t).isMultiview = true
    · obtain ⟨e, he⟩ := hmv hc hm
      rw [he] at h
      cases h
    · have hm2 : (getTexture s t).isMultiview = false := by
        simpa using hm
      obtain ⟨s5, nc, he, hca, hmem, hbtc, hac, htex⟩ := hmiss hc hm2
      rw [he] at h
      rw [Except.ok.injEq, Prod.mk.injEq] at h
      obtain ⟨h1, h2⟩ := h
      subst h1
      rw [hbtc, hac]
      rw [dictGet_dictSet_self]
      rfl
  · have hc2 : (dictGet s.boundTexturesCache s.activeChannel).matches (some t) = true ∧ f = false := by
      constructor
      · by_contra hmm
        apply hc
        simp [Bool.not_eq_true] at hmm ⊢
        left
        simpa using hmm
      · by_contra hff
        apply hc
        simp only [Bool.or_eq_true]
        right
        simpa using hff
    obtain ⟨s2, he, hbtc, htex, hac, hctc, hbu, hcl⟩ := hhit hc2
    have hf : f = false := hc2.2
    rw [he] at h
    rw [Except.ok.injEq, Prod.mk.injEq] at h
    obtain ⟨h1, h2⟩ := h
    subst h1
    rw [hbtc, hac]
    exact (matches_some_iff _ t).mp hc2.1

/-- C10: when `preventCacheWipeBetweenFrames` is set, `wipeCaches()` called
without the brute-force flag returns immediately — no cached value is
modified and no underlying context call is issued (the state, trace
included, is unchanged) — while `wipeCaches(true)` still performs the reset
(the cached program ends up cleared). -/
theorem C10_prevent_cache_wipe (s : EngineState)
    (hp : s.preventCacheWipeBetweenFrames = true) :
    wipeCaches s false = s ∧ (wipeCaches s true).currentProgram = none := by
  constructor
  · unfold wipeCaches
    simp [hp]
  · exact (wipeTrue_fields s).1

theorem C10_prevent_cache_wipe_witness :
    wipeCaches { baseState with preventCacheWipeBetweenFrames := true } false =
      { baseState with preventCacheWipeBetweenFrames := true } ∧
    (wipeCaches { baseState with preventCacheWipeBetweenFrames := true } true).currentProgram =
      none :=
  C10_prevent_cache_wipe { baseState with preventCacheWipeBetweenFrames := true } rfl

/-- C7: vertex- and index-buffer creation binds the new handle through the
state cache, uploads, then unbinds: on return the cached array-buffer
(resp. element-array-buffer and cached-index-buffer) binding is back to
`null` and in particular does not point at the newly created buffer. -/
theorem C7_buffer_creation_unbinds (s : EngineState) (data : DataArrayInput)
    (indices : IndicesArray) (updatable : Bool) :
    ((createVertexBuffer s data).1.boundBufferArray = JsVal.null ∧
      (createVertexBuffer s data).1.boundBufferArray ≠
        JsVal.val (createVertexBuffer s data).2) ∧
    ((createIndexBuffer s indices updatable).1.boundBufferElement = JsVal.null ∧
      (createIndexBuffer s indices updatable).1.cachedIndexBuffer = none ∧
      (createIndexBuffer s indices updatable).1.boundBufferElement ≠
        JsVal.val (createIndexBuffer s indices updatable).2) := by
  have h1 : (createVertexBuffer s data).1.boundBufferArray = JsVal.null := by
    simp [createVertexBuffer, _createVertexBuffer, emit, rvb_bba_null]
  have h2 : (createIndexBuffer s indices updatable).1.boundBufferElement = JsVal.null := by
    simp [createIndexBuffer, emit, rib_bbe_null]
  have h3 : (createIndexBuffer s indices updatable).1.cachedIndexBuffer = none := by
    simp [createIndexBuffer, emit, rib_cachedIndexBuffer_none]
  refine ⟨⟨h1, ?_⟩, h2, h3, ?_⟩
  · rw [h1]
    simp
  · rw [h2]
    simp

/-- C5: a buffer created by the factory starts with reference count 1;
`_releaseBuffer` decrements the count and frees the underlying allocation
(issuing the driver delete) exactly when the count reaches 0 — so
create-then-release frees it, while after attaching a second consumer one
release leaves the allocation alive and a second release frees it. -/
theorem C5_refcounted_buffer_release (s s1 : EngineState) (data : DataArrayInput)
    (id : Nat) (h1 : createVertexBuffer s data = (s1, id)) :
    (getBuffer s1 id).references = 1 ∧
    ((_releaseBuffer s1 id).2 = true ∧
      (_releaseBuffer s1 id).1.calls = GLCall.deleteBuffer id :: s1.calls) ∧
    ((getBuffer (attachBuffer s1 id) id).references = 2 ∧
      (_releaseBuffer (attachBuffer s1 id) id).2 = false ∧
      (_releaseBuffer (attachBuffer s1 id) id).1.calls = (attachBuffer s1 id).calls ∧
      (_releaseBuffer (_releaseBuffer (attachBuffer s1 id) id).1 id).2 = true ∧
      (_releaseBuffer (_releaseBuffer (attachBuffer s1 id) id).1 id).1.calls =
        GLCall.deleteBuffer id :: (_releaseBuffer (attachBuffer s1 id) id).1.calls) := by
  have hid : id = s.nextId := by
    have := congrArg Prod.snd h1
    simpa [createVertexBuffer, _createVertexBuffer] using this.symm
  have hs1 : s1 = (createVertexBuffer s data).1 := by rw [h1]
  have hget : (getBuffer s1 id).references = 1 := by
    rw [hs1, hid]
    simp [createVertexBuffer, _createVertexBuffer, getBuffer_setBuffer_self]
  have hrefs : getBuffer s1 id = { getBuffer s1 id with references := 1 } := by
    rw [← hget]
  refine ⟨hget, ⟨?_, ?_⟩, ?_, ?_, ?_, ?_, ?_⟩
  · simp [_releaseBuffer, hget]
  · simp [_releaseBuffer, hget, _deleteBuffer, emit]
  · simp [attachBuffer, getBuffer_setBuffer_self, hget]
  · simp [_releaseBuffer, attachBuffer, getBuffer_setBuffer_self, hget]
  · simp [_releaseBuffer, attachBuffer, getBuffer_setBuffer_self, hget]
  · simp [_releaseBuffer, attachBuffer, getBuffer_setBuffer_self, hget]
  · simp [_releaseBuffer, attachBuffer, getBuffer_setBuffer_self, hget, _deleteBuffer, emit]

theorem C5_refcounted_buffer_release_witness :
    (getBuffer (createVertexBuffer baseState (.size 4)).1
        (createVertexBuffer baseState (.size 4)).2).references = 1 ∧
    ((_releaseBuffer (createVertexBuffer baseState (.size 4)).1
        (createVertexBuffer baseState (.size 4)).2).2 = true ∧
      (_releaseBuffer (createVertexBuffer baseState (.size 4)).1
          (createVertexBuffer baseState (.size 4)).2).1.calls =
        GLCall.deleteBuffer (createVertexBuffer baseState (.size 4)).2 ::
          (createVertexBuffer baseState (.size 4)).1.calls) ∧
    ((getBuffer (attachBuffer (createVertexBuffer baseState (.size 4)).1
        (createVertexBuffer baseState (.size 4)).2)
        (createVertexBuffer baseState (.size 4)).2).references = 2 ∧
      (_releaseBuffer (attachBuffer (createVertexBuffer baseState (.size 4)).1
          (createVertexBuffer baseState (.size 4)).2)
          (createVertexBuffer baseState (.size 4)).2).2 = false ∧
      (_releaseBuffer (attachBuffer (createVertexBuffer baseState (.size 4)).1
          (createVertexBuffer baseState (.size 4)).2)
          (createVertexBuffer baseState (.size 4)).2).1.calls =
        (attachBuffer (createVertexBuffer baseState (.size 4)).1
          (createVertexBuffer baseState (.size 4)).2).calls ∧
      (_releaseBuffer (_releaseBuffer (attachBuffer (createVertexBuffer baseState (.size 4)).1
          (createVertexBuffer baseState (.size 4)).2)
          (createVertexBuffer baseState (.size 4)).2).1
          (createVertexBuffer baseState (.size 4)).2).2 = true ∧
      (_releaseBuffer (_releaseBuffer (attachBuffer (createVertexBuffer baseState (.size 4)).1
          (createVertexBuffer baseState (.size 4)).2)
          (createVertexBuffer baseState (.size 4)).2).1
          (createVertexBuffer baseState (.size 4)).2).1.calls =
        GLCall.deleteBuffer (createVertexBuffer baseState (.size 4)).2 ::
          (_releaseBuffer (attachBuffer (createVertexBuffer baseState (.size 4)).1
              (createVertexBuffer baseState (.size 4)).2)
              (createVertexBuffer baseState (.size 4)).2).1.calls) :=
  C5_refcounted_buffer_release baseState (createVertexBuffer baseState (.size 4)).1
    (.size 4) (createVertexBuffer baseState (.size 4)).2 rfl

/-- C1: the claim "calling the bind operation twice in succession with the
same handle issues the underlying driver call exactly once: the second call
... returns without any underlying call or side effect" is false for the
texture channel: on this concrete state (a fresh texture, a sampler uniform
registered for channel 0 but not yet routed to it), the second
`_bindTextureDirectly` with the identical texture issues a `uniform1i`
driver call via `_bindSamplerUniformToChannel`. -/
theorem C1_second_texture_bind_issues_call :
    _bindTextureDirectly { baseState with textures := [(5, ⟨-1, false, some 7⟩)], boundUniforms := [(0, 9)], currentTextureChannel := 0 } glTEXTURE_2D (some 5) false false = .ok ({ baseState with textures := [(5, ⟨0, false, some 7⟩)], boundUniforms := [(0, 9)], currentTextureChannel := 0, boundTexturesCache := [(0, some 5)], calls := [.bindTexture glTEXTURE_2D (some 7)] }, false) ∧
    _bindTextureDirectly { baseState with textures := [(5, ⟨0, false, some 7⟩)], boundUniforms := [(0, 9)], currentTextureChannel := 0, boundTexturesCache := [(0, some 5)], calls := [.bindTexture glTEXTURE_2D (some 7)] } glTEXTURE_2D (some 5) false false = .ok ({ baseState with textures := [(5, ⟨0, false, some 7⟩)], boundUniforms := [(0, 9)], currentTextureChannel := 0, boundTexturesCache := [(0, some 5)], uniformCurrentState := [(9, 0)], calls := [.uniform1i 9 0, .bindTexture glTEXTURE_2D (some 7)] }, false) ∧
    [GLCall.uniform1i 9 0, GLCall.bindTexture glTEXTURE_2D (some 7)].length = [GLCall.bindTexture glTEXTURE_2D (some 7)].length + 1 ∧
    [GLCall.uniform1i 9 0, GLCall.bindTexture glTEXTURE_2D (some 7)] ≠ [GLCall.bindTexture glTEXTURE_2D (some 7)] := by
  refine ⟨?_, ?_, rfl, by decide⟩
  · rfl
  · rfl

/-- C1 (amended): redundant binds are free up to one caveat.  Outside VAO
recording, a second `_bindBuffer` with the same handle is a complete no-op
(and when the cache initially differs, the double bind issues the
underlying call exactly once); a second `_setProgram` with the same program
is a complete no-op (and issues exactly once from a differing state); a
second `_bindTextureDirectly` with the same texture issues no texture-bind
or active-texture call and leaves the texture caches, the texture heap and
the channel state unchanged, but may issue a single sampler-uniform
(`uniform1i`) call when the channel's sampler uniform was not yet routed to
that channel. -/
theorem C1_bind_cache_idempotent (s : EngineState) (b : Option Nat) (target : Nat)
    (p : Option Nat) (tgt t : Nat) (s1 : EngineState) (w1 : Bool)
    (hvao : s.vaoRecordInProgress = false)
    (hfst : _bindTextureDirectly s tgt (some t) false false = .ok (s1, w1)) :
    _bindBuffer (_bindBuffer s b target) b target = _bindBuffer s b target ∧
    ((getBoundBuffer s target).matches b = false →
      (_bindBuffer (_bindBuffer s b target) b target).calls =
        GLCall.bindBuffer target b :: s.calls) ∧
    _setProgram (_setProgram s p) p = _setProgram s p ∧
    (s.currentProgram ≠ p →
      (_setProgram (_setProgram s p) p).calls = GLCall.useProgram p :: s.calls) ∧
    (∃ s2, _bindTextureDirectly s1 tgt (some t) false false = .ok (s2, false) ∧
      s2.boundTexturesCache = s1.boundTexturesCache ∧ s2.textures = s1.textures ∧
      s2.activeChannel = s1.activeChannel ∧
      s2.currentTextureChannel = s1.currentTextureChannel ∧
      (s2.calls = s1.calls ∨ ∃ u d, s2.calls = GLCall.uniform1i u d :: s1.calls)) := by
  refine ⟨bindBuffer_idem s b target hvao, ?_, setProgram_idem s p, ?_, ?_⟩
  · intro hmiss
    rw [bindBuffer_idem s b target hvao]
    exact bindBuffer_issues_calls s b target hmiss
  · intro hne
    rw [setProgram_idem s p]
    unfold _setProgram
    rw [if_pos hne]
    rfl
  · have hcached := btd_ok_cached s tgt t false s1 w1 hfst
    have hm : (dictGet s1.boundTexturesCache s1.activeChannel).matches (some t) = true := by
      rw [hcached]
      simp [JsVal.matches]
    obtain ⟨s2, he, hbtc, htex, hac, hctc, hbu, hcl⟩ := (btd_main s1 tgt t false).1 ⟨hm, rfl⟩
    exact ⟨s2, he, hbtc, htex, hac, hctc, hcl⟩

theorem C1_bind_cache_idempotent_witness :
    _bindBuffer (_bindBuffer baseState (some 3) glARRAY_BUFFER) (some 3) glARRAY_BUFFER = _bindBuffer baseState (some 3) glARRAY_BUFFER ∧
    (_bindBuffer (_bindBuffer baseState (some 3) glARRAY_BUFFER) (some 3) glARRAY_BUFFER).calls = GLCall.bindBuffer glARRAY_BUFFER (some 3) :: ([] : List GLCall) ∧
    _setProgram (_setProgram baseState (some 4)) (some 4) = _setProgram baseState (some 4) ∧
    (_setProgram (_setProgram baseState (some 4)) (some 4)).calls = GLCall.useProgram (some 4) :: ([] : List GLCall) ∧
    (∃ s2, _bindTextureDirectly { baseState with currentTextureChannel := 0, boundTexturesCache := [(0, some 5)], textures := [(5, ⟨0, false, none⟩)], calls := [.bindTexture glTEXTURE_2D none, .activeTexture 33984] } glTEXTURE_2D (some 5) false false = .ok (s2, false) ∧
      s2.boundTexturesCache = [(0, some 5)] ∧
      s2.textures = [(5, ⟨0, false, none⟩)] ∧ s2.activeChannel = 0 ∧
      s2.currentTextureChannel = 0 ∧
      (s2.calls = [GLCall.bindTexture glTEXTURE_2D none, GLCall.activeTexture 33984] ∨
        ∃ u d, s2.calls = GLCall.uniform1i u d :: [GLCall.bindTexture glTEXTURE_2D none, GLCall.activeTexture 33984])) := by
  have h := C1_bind_cache_idempotent baseState (some 3) glARRAY_BUFFER (some 4)
    glTEXTURE_2D 5
    { baseState with currentTextureChannel := 0, boundTexturesCache := [(0, some 5)], textures := [(5, ⟨0, false, none⟩)], calls := [.bindTexture glTEXTURE_2D none, .activeTexture 33984] }
    false rfl rfl
  exact ⟨h.1, h.2.1 (by decide), h.2.2.1, h.2.2.2.1 (by decide), h.2.2.2.2⟩

/-- C2: the claim that after a context-loss event every bind/draw entry
point "returns without invoking the underlying driver" is false: on a fresh
engine state after `_onContextLost`, `_bindBuffer` still issues the
underlying `gl.bindBuffer` call (no entry point checks the Lost flag). -/
theorem C2_lost_bind_still_calls_driver :
    (_onContextLost baseState).contextWasLost = true ∧
    (_onContextLost baseState).calls = ([] : List GLCall) ∧
    (_bindBuffer (_onContextLost baseState) (some 3) glARRAY_BUFFER).calls =
      [GLCall.bindBuffer glARRAY_BUFFER (some 3)] := by
  decide

/-- C2 (amended): the context-lost handler only records the loss — it sets
the `contextWasLost` flag, notifies the observers, issues no driver call and
touches no binding cache; the bind entry points do not check the Lost state:
`_bindBuffer` behaves identically with the flag set (and in particular still
issues the underlying call whenever the cache differs).  The absence of
crashes on a lost context comes from the host making WebGL calls no-ops,
not from an engine-side gate. -/
theorem C2_lost_state_not_gated (s : EngineState) (b : Option Nat) (target : Nat) :
    (_onContextLost s).contextWasLost = true ∧
    (_onContextLost s).contextLostNotifications = s.contextLostNotifications + 1 ∧
    (_onContextLost s).calls = s.calls ∧
    (_onContextLost s).boundBufferArray = s.boundBufferArray ∧
    (_onContextLost s).boundBufferElement = s.boundBufferElement ∧
    (_onContextLost s).boundTexturesCache = s.boundTexturesCache ∧
    (_onContextLost s).currentProgram = s.currentProgram ∧
    ((getBoundBuffer (_onContextLost s) target).matches b = false →
      (_bindBuffer (_onContextLost s) b target).calls =
        GLCall.bindBuffer target b :: s.calls) ∧
    _bindBuffer { s with contextWasLost := true } b target =
      { _bindBuffer s b target with contextWasLost := true } := by
  refine ⟨rfl, rfl, rfl, rfl, rfl, rfl, rfl, ?_, ?_⟩
  · intro hmiss
    exact bindBuffer_issues_calls _ b target hmiss
  · by_cases hc : (s.vaoRecordInProgress || !((getBoundBuffer s target).matches b)) = true
    · have hc1 : (({ s with contextWasLost := true } : EngineState).vaoRecordInProgress ||
          !((getBoundBuffer { s with contextWasLost := true } target).matches b)) = true := hc
      unfold _bindBuffer
      rw [if_pos hc1, if_pos hc]
      unfold setBoundBuffer emit
      split <;> rfl
    · have hc1 : ¬ (({ s with contextWasLost := true } : EngineState).vaoRecordInProgress ||
          !((getBoundBuffer { s with contextWasLost := true } target).matches b)) = true := hc
      unfold _bindBuffer
      rw [if_neg hc1, if_neg hc]

theorem C2_lost_state_not_gated_witness :
    (_onContextLost baseState).contextWasLost = true ∧
    (_onContextLost baseState).contextLostNotifications = baseState.contextLostNotifications + 1 ∧
    (_onContextLost baseState).calls = baseState.calls ∧
    (_onContextLost baseState).boundBufferArray = baseState.boundBufferArray ∧
    (_onContextLost baseState).boundBufferElement = baseState.boundBufferElement ∧
    (_onContextLost baseState).boundTexturesCache = baseState.boundTexturesCache ∧
    (_onContextLost baseState).currentProgram = baseState.currentProgram ∧
    (_bindBuffer (_onContextLost baseState) (some 3) glARRAY_BUFFER).calls =
      GLCall.bindBuffer glARRAY_BUFFER (some 3) :: baseState.calls ∧
    _bindBuffer { baseState with contextWasLost := true } (some 3) glARRAY_BUFFER =
      { _bindBuffer baseState (some 3) glARRAY_BUFFER with contextWasLost := true } := by
  have h := C2_lost_state_not_gated baseState (some 3) glARRAY_BUFFER
  exact ⟨h.1, h.2.1, h.2.2.1, h.2.2.2.1, h.2.2.2.2.1, h.2.2.2.2.2.1, h.2.2.2.2.2.2.1,
    h.2.2.2.2.2.2.2.1 (by decide), h.2.2.2.2.2.2.2.2⟩

/-- C6: after `wipeCaches(true)` (the full cache wipe used on context
restoration), the next bind of any handle issues the underlying driver
call for every binding kind — buffer targets, the program, and texture
channels — even when the handle was the last-bound value before the wipe
(the state `s` is arbitrary, so in particular it may have the handle
cached). -/
theorem C6_wipe_forces_rebind (s : EngineState) (b p t : Nat) (target tgt : Nat)
    (hmv : (getTexture s t).isMultiview = false) :
    (_bindBuffer (wipeCaches s true) (some b) target).calls =
      GLCall.bindBuffer target (some b) :: (wipeCaches s true).calls ∧
    (_setProgram (wipeCaches s true) (some p)).calls =
      GLCall.useProgram (some p) :: (wipeCaches s true).calls ∧
    (∃ s5 newCalls,
      _bindTextureDirectly (wipeCaches s true) tgt (some t) false false = .ok (s5, false) ∧
      s5.calls = newCalls ++ (wipeCaches s true).calls ∧
      GLCall.bindTexture tgt (getTexture s t).hardwareResource ∈ newCalls) := by
  obtain ⟨hcp, hba, hbe, hbtc, htex, hac⟩ := wipeTrue_fields s
  refine ⟨?_, ?_, ?_⟩
  · apply bindBuffer_issues_calls
    unfold getBoundBuffer
    split
    · rw [hbe]
      rfl
    · rw [hba]
      rfl
  · unfold _setProgram
    rw [if_pos (by rw [hcp]; simp)]
    rfl
  · have hmiss : (!((dictGet (wipeCaches s true).boundTexturesCache
        (wipeCaches s true).activeChannel).matches (some t)) || false) = true := by
      rw [hbtc]
      simp [dictGet_map_none_matches]
    have hmv2 : (getTexture (wipeCaches s true) t).isMultiview = false := by
      rw [getTexture_eq_of_textures t htex]
      exact hmv
    obtain ⟨s5, nc, he, hcalls, hmem, _, _, _⟩ :=
      (btd_main (wipeCaches s true) tgt t false).2.1 hmiss hmv2
    refine ⟨s5, nc, he, hcalls, ?_⟩
    rw [← getTexture_eq_of_textures t htex]
    exact hmem

theorem C6_wipe_forces_rebind_witness :
    (_bindBuffer (wipeCaches baseState true) (some 3) glARRAY_BUFFER).calls =
      GLCall.bindBuffer glARRAY_BUFFER (some 3) :: (wipeCaches baseState true).calls ∧
    (_setProgram (wipeCaches baseState true) (some 4)).calls =
      GLCall.useProgram (some 4) :: (wipeCaches baseState true).calls ∧
    (∃ s5 newCalls,
      _bindTextureDirectly (wipeCaches baseState true) glTEXTURE_2D (some 5) false false =
        .ok (s5, false) ∧
      s5.calls = newCalls ++ (wipeCaches baseState true).calls ∧
      GLCall.bindTexture glTEXTURE_2D (getTexture baseState 5).hardwareResource ∈ newCalls) :=
  C6_wipe_forces_rebind baseState 3 4 5 glARRAY_BUFFER glTEXTURE_2D (by decide)

theorem bindArrayBuffer_frame (x : EngineState) (b : Option Nat) : ∃ vao a new,
    bindArrayBuffer x b = { x with cachedVertexArrayObject := vao, boundBufferArray := a, calls := new ++ x.calls } ∧
    ∀ c ∈ new, isElementArrayBind c = false := by
  unfold bindArrayBuffer
  split
  · obtain ⟨v, new1, heq1, hs1⟩ := unbindVAO_frame x
    rw [heq1]
    obtain ⟨a, new2, heq2, hs2⟩ := bindBufferOp_array_frame
      { x with cachedVertexArrayObject := v, calls := new1 ++ x.calls } b
    rw [heq2]
    refine ⟨v, a, new2 ++ new1, by simp [List.append_assoc], ?_⟩
    intro c hc
    rcases List.mem_append.mp hc with h | h
    · obtain ⟨r, hr⟩ := hs2 c h
      subst hr
      rfl
    · have hv := hs1 c h
      subst hv
      rfl
  · obtain ⟨a, new2, heq2, hs2⟩ := bindBufferOp_array_frame x b
    rw [heq2]
    refine ⟨x.cachedVertexArrayObject, a, new2, rfl, ?_⟩
    intro c hc
    obtain ⟨r, hr⟩ := hs2 c hc
    subst hr
    rfl

theorem bab_emit_frame (x : EngineState) (b : Nat) (c : GLCall)
    (hc : isElementArrayBind c = false) : ∃ vao a new,
    emit (bindArrayBuffer x (some b)) c = { x with cachedVertexArrayObject := vao, boundBufferArray := a, calls := new ++ x.calls } ∧
    ∀ d ∈ new, isElementArrayBind d = false := by
  obtain ⟨vao, a, new, heq, hs⟩ := bindArrayBuffer_frame x (some b)
  refine ⟨vao, a, c :: new, by rw [heq]; rfl, ?_⟩
  intro d hd
  rcases List.mem_cons.mp hd with h | h
  · subst h
    exact hc
  · exact hs d h

theorem vap_frame (s : EngineState) (buffer indx size ty : Nat) (norm : Bool)
    (stride offset : Nat) : ∃ bp vao a new,
    _vertexAttribPointer s buffer indx size ty norm stride offset =
      { s with currentBufferPointers := bp, cachedVertexArrayObject := vao, boundBufferArray := a, calls := new ++ s.calls } ∧
    ∀ c ∈ new, isElementArrayBind c = false := by
  unfold _vertexAttribPointer
  cases s.currentBufferPointers.get? indx with
  | none =>
    exact ⟨s.currentBufferPointers, s.cachedVertexArrayObject, s.boundBufferArray, [],
      rfl, by simp⟩
  | some pointer =>
    dsimp only
    split
    · dsimp only
      rw [if_pos (by simp)]
      split
      · obtain ⟨vao, a, new, heq, hs⟩ := bab_emit_frame
          { s with currentBufferPointers := s.currentBufferPointers.set indx ⟨true, Int.ofNat indx, size, ty, norm, stride, offset, buffer⟩ }
          buffer (GLCall.vertexAttribIPointer (Int.ofNat indx) size ty stride offset) rfl
        rw [heq]
        exact ⟨_, vao, a, new, rfl, hs⟩
      · obtain ⟨vao, a, new, heq, hs⟩ := bab_emit_frame
          { s with currentBufferPointers := s.currentBufferPointers.set indx ⟨true, Int.ofNat indx, size, ty, norm, stride, offset, buffer⟩ }
          buffer (GLCall.vertexAttribPointer (Int.ofNat indx) size ty norm stride offset) rfl
        rw [heq]
        exact ⟨_, vao, a, new, rfl, hs⟩
    · dsimp only
      split
      · split
        · obtain ⟨vao, a, new, heq, hs⟩ := bab_emit_frame
            { s with currentBufferPointers := s.currentBufferPointers.set indx { pointer with buffer := buffer, size := size, ty := ty, normalized := norm, stride := stride, offset := offset } }
            buffer (GLCall.vertexAttribIPointer (Int.ofNat indx) size ty stride offset) rfl
          rw [heq]
          exact ⟨_, vao, a, new, rfl, hs⟩
        · obtain ⟨vao, a, new, heq, hs⟩ := bab_emit_frame
            { s with currentBufferPointers := s.currentBufferPointers.set indx { pointer with buffer := buffer, size := size, ty := ty, normalized := norm, stride := stride, offset := offset } }
            buffer (GLCall.vertexAttribPointer (Int.ofNat indx) size ty norm stride offset) rfl
          rw [heq]
          exact ⟨_, vao, a, new, rfl, hs⟩
      · exact ⟨_, s.cachedVertexArrayObject, s.boundBufferArray, [], rfl, by simp⟩

theorem ii_rfl (s : EngineState) : IndexIntact s s := ⟨rfl, rfl, [], rfl, by simp⟩

theorem ii_trans {s0 s1 s2 : EngineState} (h1 : IndexIntact s0 s1)
    (h2 : IndexIntact s1 s2) : IndexIntact s0 s2 := by
  obtain ⟨a1, b1, n1, hc1, hs1⟩ := h1
  obtain ⟨a2, b2, n2, hc2, hs2⟩ := h2
  refine ⟨a2.trans a1, b2.trans b1, n2 ++ n1, by rw [hc2, hc1, List.append_assoc], ?_⟩
  intro c hc
  rcases List.mem_append.mp hc with h | h
  · exact hs2 c h
  · exact hs1 c h

theorem ii_step_emit (s : EngineState) (c : GLCall) (hc : isElementArrayBind c = false) :
    IndexIntact s (emit s c) := ⟨rfl, rfl, [c], rfl, by simpa using hc⟩

theorem ii_step_uVAO (s : EngineState) : IndexIntact s (_unbindVertexArrayObject s) := by
  obtain ⟨v, new, heq, hs⟩ := unbindVAO_frame s
  rw [heq]
  refine ⟨rfl, rfl, new, rfl, ?_⟩
  intro c hc
  have := hs c hc
  subst this
  rfl

theorem ii_step_bab (s : EngineState) (b : Option Nat) :
    IndexIntact s (bindArrayBuffer s b) := by
  obtain ⟨vao, a, new, heq, hs⟩ := bindArrayBuffer_frame s b
  rw [heq]
  exact ⟨rfl, rfl, new, rfl, hs⟩

theorem ii_step_vap (s : EngineState) (buffer indx size ty : Nat) (norm : Bool)
    (stride offset : Nat) :
    IndexIntact s (_vertexAttribPointer s buffer indx size ty norm stride offset) := by
  obtain ⟨bp, vao, a, new, heq, hs⟩ := vap_frame s buffer indx size ty norm stride offset
  rw [heq]
  exact ⟨rfl, rfl, new, rfl, hs⟩

theorem ii_step_uaa (s : EngineState) : IndexIntact s (unbindAllAttributes s) := by
  obtain ⟨mw, en, bp, new, heq, hs⟩ := attrFrame_unbindAll s
  rw [heq]
  refine ⟨rfl, rfl, new, rfl, ?_⟩
  intro c hc
  obtain ⟨i, hi⟩ := hs c hc
  subst hi
  rfl

theorem ii_step_condUVAO (s : EngineState) :
    IndexIntact s (if !s.vaoRecordInProgress then _unbindVertexArrayObject s else s) := by
  split
  · exact ii_step_uVAO s
  · exact ii_rfl s

theorem ii_tail (a x : EngineState) (vb : VertexBuffer) (order : Int)
    (h : IndexIntact a x) :
    IndexIntact a (match vb.bufferId with
      | none => x
      | some buffer =>
        let s4 := _vertexAttribPointer x buffer order.toNat vb.size vb.ty vb.normalized vb.byteStride vb.byteOffset
        if vb.isInstanced then
          let s5 := emit s4 (.vertexAttribDivisor order vb.instanceDivisor)
          if !s5.vaoRecordInProgress then
            { s5 with currentInstanceLocations := s5.currentInstanceLocations ++ [order], currentInstanceBuffers := s5.currentInstanceBuffers ++ [buffer] }
          else s5
        else s4) := by
  cases vb.bufferId with
  | none => exact h
  | some buffer =>
    dsimp only
    refine ii_trans h ?_
    refine ii_trans (ii_step_vap x buffer order.toNat vb.size vb.ty vb.normalized
      vb.byteStride vb.byteOffset) ?_
    split
    · split
      · exact ⟨rfl, rfl, [GLCall.vertexAttribDivisor order vb.instanceDivisor], rfl,
          by simp [isElementArrayBind]⟩
      · exact ii_step_emit _ _ rfl
    · exact ii_rfl _

theorem ii_step_bvba (s : EngineState)
    (vertexBuffers : List (String × Option VertexBuffer)) (effect : EffectRec)
    (ovb : Option (List (String × Option VertexBuffer))) :
    IndexIntact s (_bindVertexBuffersAttributes s vertexBuffers effect ovb) := by
  unfold _bindVertexBuffersAttributes
  refine foldl_preserve ?_ _ _ ?_
  · intro a i pa
    dsimp only
    split
    · split
      · exact pa
      · refine ii_trans pa ?_
        refine ii_tail _ _ _ _ ?_
        split
        · exact ⟨rfl, rfl, [GLCall.enableVertexAttribArray _], rfl, by simp [isElementArrayBind]⟩
        · exact ii_step_emit _ _ rfl
    · exact pa
  · exact ii_trans (ii_step_condUVAO s) (ii_step_uaa _)

/-- C9: binding with a null index buffer is a no-op on the index-binding
state: `_bindIndexBufferWithCache(null)` returns immediately, and
`bindBuffers` with a null index buffer leaves the cached index-buffer
binding and the 32-bit-element-width flag unchanged and issues no
element-array-buffer bind call (`IndexIntact`). -/
theorem C9_null_index_buffer_noop (s : EngineState) (vertexBuffersId : Nat)
    (vertexBuffers : List (String × Option VertexBuffer)) (effect : EffectRec)
    (ovb : Option (List (String × Option VertexBuffer))) :
    _bindIndexBufferWithCache s none = s ∧
    IndexIntact s (bindBuffers s vertexBuffersId vertexBuffers none effect ovb) := by
  constructor
  · rfl
  · unfold bindBuffers
    unfold _bindIndexBufferWithCache
    split
    · refine ii_trans ?_ (ii_step_bvba _ vertexBuffers effect ovb)
      exact ⟨rfl, rfl, [], rfl, by simp⟩
    · exact ii_rfl s

/-- C3: the claim's 16/32-bit threshold is off by one: the code widens when
some index is `>= 65535`, so the index list `[65535]` — all of whose values
are `< 65536` — is stored as 32-bit with the capability present, not 16-bit
as the claim states. -/
theorem C3_threshold_counterexample :
    (65535 : Int) < 65536 ∧
    _normalizeIndexData defaultCaps (.numbers [65535]) = .u32 [65535] ∧
    (_normalizeIndexData defaultCaps (.numbers [65535])).is32Bits = true := by
  refine ⟨by decide, ?_, ?_⟩ <;> decide

/-- C3 (amended): for a `number[]` or `Int32Array` index list, with the
32-bit capability present the element width is 16-bit when every value is
`< 65535` and 32-bit when some value is `>= 65535`; without the capability
the data is always narrowed to 16-bit, values reduced modulo 2^16
(truncated, no error). -/
theorem C3_index_width_selection (caps : Caps) (l : List Int) (ind : IndicesArray)
    (hind : ind = .numbers l ∨ ind = .int32 l) :
    (caps.uintIndices = true →
      ((∀ v ∈ l, v < 65535) → _normalizeIndexData caps ind = .u16 (l.map toUint16)) ∧
      ((∃ v ∈ l, v ≥ 65535) → _normalizeIndexData caps ind = .u32 (l.map toUint32))) ∧
    (caps.uintIndices = false → _normalizeIndexData caps ind = .u16 (l.map toUint16)) := by
  have hany_false : (∀ v ∈ l, v < 65535) → (l.any fun v => v ≥ 65535) = false := by
    intro h
    simp only [List.any_eq_false, decide_eq_true_eq]
    intro v hv
    exact not_le.mpr (h v hv)
  have hany_true : (∃ v ∈ l, v ≥ 65535) → (l.any fun v => v ≥ 65535) = true := by
    intro ⟨v, hv, hge⟩
    simp only [List.any_eq_true, decide_eq_true_eq]
    exact ⟨v, hv, hge⟩
  rcases hind with h | h <;> subst h
  · constructor
    · intro hcap
      constructor
      · intro hall
        simp [_normalizeIndexData, IndicesArray.values, hcap, hany_false hall]
      · intro hex
        simp [_normalizeIndexData, IndicesArray.values, hcap, hany_true hex]
    · intro hcap
      simp [_normalizeIndexData, IndicesArray.values, hcap]
  · constructor
    · intro hcap
      constructor
      · intro hall
        simp [_normalizeIndexData, IndicesArray.values, hcap, hany_false hall]
      · intro hex
        simp [_normalizeIndexData, IndicesArray.values, hcap, hany_true hex]
    · intro hcap
      simp [_normalizeIndexData, IndicesArray.values, hcap]

theorem C3_index_width_selection_witness :
    _normalizeIndexData defaultCaps (.numbers [0, 1, 2, 0, 2, 3]) =
      .u16 ([0, 1, 2, 0, 2, 3].map toUint16) ∧
    _normalizeIndexData defaultCaps (.numbers [70000]) = .u32 ([70000].map toUint32) ∧
    _normalizeIndexData { defaultCaps with uintIndices := false } (.numbers [70000]) =
      .u16 ([70000].map toUint16) := by
  refine ⟨?_, ?_, ?_⟩
  · exact ((C3_index_width_selection defaultCaps [0, 1, 2, 0, 2, 3]
      (.numbers [0, 1, 2, 0, 2, 3]) (Or.inl rfl)).1 rfl).1 (by decide)
  · exact ((C3_index_width_selection defaultCaps [70000]
      (.numbers [70000]) (Or.inl rfl)).1 rfl).2 ⟨70000, by decide, by decide⟩
  · exact (C3_index_width_selection { defaultCaps with uintIndices := false } [70000]
      (.numbers [70000]) (Or.inl rfl)).2 rfl

theorem strAppend_left_cancel {a x y : String} (h : a ++ x = a ++ y) : x = y := by
  have hd := congrArg String.data h
  simp only [String.data_append] at hd
  exact String.ext (List.append_cancel_left hd)

theorem strAppend_right_cancel {x y g : String} (h : x ++ g = y ++ g) : x = y := by
  have hd := congrArg String.data h
  simp only [String.data_append] at hd
  exact String.ext (List.append_cancel_right hd)

theorem effectKey_inj (v f : String) {x y : String}
    (h : effectKey v f x = effectKey v f y) : x = y := by
  unfold effectKey at h
  exact strAppend_left_cancel h

theorem fullDefinesOf_inj (g : String) {d1 d2 : String}
    (h : fullDefinesOf (some d1) g = fullDefinesOf (some d2) g) : d1 = d2 := by
  unfold fullDefinesOf at h
  by_cases hg : g ≠ ""
  · rw [if_pos hg, if_pos hg] at h
    exact strAppend_right_cancel h
  · rw [if_neg hg, if_neg hg] at h
    exact h

/-- C4: the claim that the memoization key is "exactly the concatenation of
vertex-source-id + fragment-source-id + \"@\" + the fully expanded defines
string" is false: the code inserts a `"+"` separator between the two source
identifiers (`vertex + "+" + fragment + "@" + fullDefines`), so for vertex
id `"a"`, fragment id `"b"` and empty defines the key is `"a+b@"`, not
`"ab@"`. -/
theorem C4_key_counterexample :
    effectKey "a" "b" "" ≠ claimedEffectKey "a" "b" "" ∧
    effectKey "a" "b" "" = "a+b@" ∧ claimedEffectKey "a" "b" "" = "ab@" := by
  refine ⟨?_, rfl, rfl⟩
  decide

/-- C4 (amended): `createEffect` is memoized on the key
`vertex + "+" + fragment + "@" + fullDefines` (defines after global
injection): repeating a call with identical vertex id, fragment id and
defines returns the same effect object and increments its reference count;
a call differing only in the defines string produces a distinct effect
object; a cache miss stores the new effect under exactly that key. -/
theorem C4_effect_memoization (s : EngineState) (v f g d1 d2 : String)
    (hk1 : assocGet s.compiledEffects (effectKey v f (fullDefinesOf (some d1) g)) = none)
    (hk2 : assocGet s.compiledEffects (effectKey v f (fullDefinesOf (some d2) g)) = none)
    (hne : d1 ≠ d2) :
    (createEffect (createEffect s v f (some d1) g).1 v f (some d1) g).2 =
      (createEffect s v f (some d1) g).2 ∧
    assocGet (createEffect (createEffect s v f (some d1) g).1 v f (some d1) g).1.effectRefCounts
        (createEffect s v f (some d1) g).2 =
      some ((assocGet (createEffect s v f (some d1) g).1.effectRefCounts
        (createEffect s v f (some d1) g).2).getD 0 + 1) ∧
    (createEffect (createEffect s v f (some d1) g).1 v f (some d2) g).2 ≠
      (createEffect s v f (some d1) g).2 ∧
    (createEffect s v f (some d1) g).1.compiledEffects =
      assocSet s.compiledEffects (effectKey v f (fullDefinesOf (some d1) g))
        (createEffect s v f (some d1) g).2 ∧
    effectKey v f (fullDefinesOf (some d1) g) =
      v ++ "+" ++ f ++ "@" ++ fullDefinesOf (some d1) g := by
  have hk12 : effectKey v f (fullDefinesOf (some d2) g) ≠
      effectKey v f (fullDefinesOf (some d1) g) := by
    intro he
    exact hne (fullDefinesOf_inj g (effectKey_inj v f he)).symm
  have h1 : createEffect s v f (some d1) g = ({ s with compiledEffects := assocSet s.compiledEffects (effectKey v f (fullDefinesOf (some d1) g)) s.nextId, effectRefCounts := assocSet s.effectRefCounts s.nextId 1, nextId := s.nextId + 1 }, s.nextId) := by
    unfold createEffect
    simp only [hk1]
  refine ⟨?_, ?_, ?_, ?_, rfl⟩
  · rw [h1]
    unfold createEffect
    simp [assocGet_assocSet_self]
  · rw [h1]
    unfold createEffect
    simp [assocGet_assocSet_self]
  · rw [h1]
    unfold createEffect
    simp [assocGet_assocSet_other _ _ _ _ hk12, hk2]
  · rw [h1]

theorem C4_effect_memoization_witness :
    (createEffect (createEffect baseState "a" "b" (some "D1") "G").1 "a" "b" (some "D1") "G").2 =
      (createEffect baseState "a" "b" (some "D1") "G").2 ∧
    assocGet (createEffect (createEffect baseState "a" "b" (some "D1") "G").1
        "a" "b" (some "D1") "G").1.effectRefCounts
        (createEffect baseState "a" "b" (some "D1") "G").2 =
      some ((assocGet (createEffect baseState "a" "b" (some "D1") "G").1.effectRefCounts
        (createEffect baseState "a" "b" (some "D1") "G").2).getD 0 + 1) ∧
    (createEffect (createEffect baseState "a" "b" (some "D1") "G").1 "a" "b" (some "D2") "G").2 ≠
      (createEffect baseState "a" "b" (some "D1") "G").2 ∧
    (createEffect baseState "a" "b" (some "D1") "G").1.compiledEffects =
      assocSet baseState.compiledEffects (effectKey "a" "b" (fullDefinesOf (some "D1") "G"))
        (createEffect baseState "a" "b" (some "D1") "G").2 ∧
    effectKey "a" "b" (fullDefinesOf (some "D1") "G") =
      "a" ++ "+" ++ "b" ++ "@" ++ fullDefinesOf (some "D1") "G" :=
  C4_effect_memoization baseState "a" "b" "G" "D1" "D2" (by decide) (by decide) (by decide)

/-- C8: the claim that the float-texture sampling-mode downgrade happens
"with a logged warning" is false: with float textures supported but float
linear filtering absent, `_createInternalTexture` forces nearest sampling
and logs nothing (the warning in this function belongs to the unsupported
float-texture-type fallback, not to the filtering downgrade). -/
theorem C8_silent_downgrade_counterexample :
    (_createInternalTextureResolve { defaultCaps with textureFloatLinearFiltering := false } 2 false (.opts { generateMipMaps := false, createMipMaps := false, ty := some TEXTURETYPE_FLOAT, samplingMode := some TEXTURE_TRILINEAR_SAMPLINGMODE, format := none, useSRGBBuffer := none })).samplingMode = TEXTURE_NEAREST_SAMPLINGMODE ∧
    (_createInternalTextureResolve { defaultCaps with textureFloatLinearFiltering := false } 2 false (.opts { generateMipMaps := false, createMipMaps := false, ty := some TEXTURETYPE_FLOAT, samplingMode := some TEXTURE_TRILINEAR_SAMPLINGMODE, format := none, useSRGBBuffer := none })).warnings = [] := by
  refine ⟨rfl, rfl⟩

/-- C8 (amended): when a texture is created with a floating-point type
(float or half-float) and the capability record lacks linear filtering for
that type, `_createInternalTexture` silently downgrades the sampling mode to
nearest — no exception is raised (the resolution is total) and no message
is logged for the downgrade; a warning is logged only in the separate case
where the float texture type itself is unsupported and the type falls back
to 8-bit. -/
theorem C8_float_sampling_downgrade (caps : Caps) (webGLVersion : Nat)
    (isWebGPU : Bool) (o : InternalTextureCreationOptions)
    (hfl : (o.ty = some TEXTURETYPE_FLOAT ∧ caps.textureFloatLinearFiltering = false) ∨
           (o.ty = some TEXTURETYPE_HALF_FLOAT ∧ caps.textureHalfFloatLinearFiltering = false)) :
    (_createInternalTextureResolve caps webGLVersion isWebGPU (.opts o)).samplingMode =
      TEXTURE_NEAREST_SAMPLINGMODE ∧
    (_createInternalTextureResolve caps webGLVersion isWebGPU (.opts o)).warnings =
      (if o.ty = some TEXTURETYPE_FLOAT ∧ caps.textureFloat = false then [floatTextureWarning]
       else []) := by
  rcases hfl with ⟨hty, hlin⟩ | ⟨hty, hlin⟩
  · by_cases htf : caps.textureFloat = true
    · constructor
      · simp [_createInternalTextureResolve, hty, hlin, htf, TEXTURETYPE_FLOAT,
          TEXTURETYPE_UNSIGNED_BYTE]
      · simp [_createInternalTextureResolve, hty, hlin, htf, TEXTURETYPE_FLOAT,
          TEXTURETYPE_UNSIGNED_BYTE]
    · have htf2 : caps.textureFloat = false := by simpa using htf
      constructor
      · simp [_createInternalTextureResolve, hty, hlin, htf2, TEXTURETYPE_FLOAT,
          TEXTURETYPE_UNSIGNED_BYTE]
      · simp [_createInternalTextureResolve, hty, hlin, htf2, TEXTURETYPE_FLOAT,
          TEXTURETYPE_UNSIGNED_BYTE]
  · constructor
    · simp [_createInternalTextureResolve, hty, hlin, TEXTURETYPE_FLOAT,
        TEXTURETYPE_HALF_FLOAT, TEXTURETYPE_UNSIGNED_BYTE]
    · simp [_createInternalTextureResolve, hty, hlin, TEXTURETYPE_FLOAT,
        TEXTURETYPE_HALF_FLOAT, TEXTURETYPE_UNSIGNED_BYTE]

theorem C8_float_sampling_downgrade_witness :
    (_createInternalTextureResolve { defaultCaps with textureFloatLinearFiltering := false, textureFloat := false } 2 false
      (.opts { generateMipMaps := false, createMipMaps := false, ty := some TEXTURETYPE_FLOAT, samplingMode := some TEXTURE_TRILINEAR_SAMPLINGMODE, format := none, useSRGBBuffer := none })).samplingMode =
      TEXTURE_NEAREST_SAMPLINGMODE ∧
    (_createInternalTextureResolve { defaultCaps with textureFloatLinearFiltering := false, textureFloat := false } 2 false
      (.opts { generateMipMaps := false, createMipMaps := false, ty := some TEXTURETYPE_FLOAT, samplingMode := some TEXTURE_TRILINEAR_SAMPLINGMODE, format := none, useSRGBBuffer := none })).warnings =
      (if (some TEXTURETYPE_FLOAT : Option Nat) = some TEXTURETYPE_FLOAT ∧
          ({ defaultCaps with textureFloatLinearFiltering := false, textureFloat := false } : Caps).textureFloat = false then
        [floatTextureWarning]
       else []) :=
  C8_float_sampling_downgrade { defaultCaps with textureFloatLinearFiltering := false, textureFloat := false } 2 false { generateMipMaps := false, createMipMaps := false, ty := some TEXTURETYPE_FLOAT, samplingMode := some TEXTURE_TRILINEAR_SAMPLINGMODE, format := none, useSRGBBuffer := none } (Or.inl ⟨rfl, rfl⟩)

end Babylon
